import Mathlib

/-!
Verification of the jsx-dsl compiler pipeline (tokenizer `src/tokenizer-ts.js`,
the parser embedded in `src/index.js`, and the generators in
`src/generator-ts.js` / `src/generator.js`) against its specification.

Modelling conventions:
* Tokens are modelled by their kind and literal value.  The line/column
  provenance carried by the JavaScript tokens is metadata that never
  influences control flow (it is only interpolated into error messages),
  so it is elided here; error messages keep their identifying text minus
  the positional suffix.
* JavaScript numbers scanned by the lexer are stored as the raw scanned
  digit string.  The source applies `parseFloat` and later `String(...)`,
  which is the identity on the canonical decimal literals exercised here;
  no claim depends on float normalisation.
* The source's unbounded `while` loops (which can diverge, e.g. on an
  unterminated JSX element) are modelled with an explicit fuel parameter;
  running out of fuel yields the distinguished error "fuel".
-/

namespace JsxDsl

/-- Token kinds of `TOKEN_TYPES` in `tokenizer-ts.js`, with literal values
inlined.  There is no `CONTEXT` kind: the tokenizer never defines one
(`&` produces `AMPERSAND`). -/
inductive Tok where
  | state
  | effect
  | memo
  | prop
  | event
  | colonType
  | question
  | pipe
  | ampersand
  | assign
  | plus
  | minus
  | multiply
  | slash
  | increment
  | decrement
  | plusAssign
  | arrow
  | dot
  | comma
  | lparen
  | rparen
  | lbrace
  | rbrace
  | lbracket
  | rbracket
  | lt
  | gt
  | str (value : String)
  | number (value : String)
  | identifier (value : String)
  | newline
  | eof
deriving Repr, DecidableEq

/-- The `TOKEN_TYPES` name of a token, used in parser error messages. -/
def tokName : Tok → String
  | .state => "STATE"
  | .effect => "EFFECT"
  | .memo => "MEMO"
  | .prop => "PROP"
  | .event => "EVENT"
  | .colonType => "COLON_TYPE"
  | .question => "QUESTION"
  | .pipe => "PIPE"
  | .ampersand => "AMPERSAND"
  | .assign => "ASSIGN"
  | .plus => "PLUS"
  | .minus => "MINUS"
  | .multiply => "MULTIPLY"
  | .slash => "SLASH"
  | .increment => "INCREMENT"
  | .decrement => "DECREMENT"
  | .plusAssign => "PLUS_ASSIGN"
  | .arrow => "ARROW"
  | .dot => "DOT"
  | .comma => "COMMA"
  | .lparen => "LPAREN"
  | .rparen => "RPAREN"
  | .lbrace => "LBRACE"
  | .rbrace => "RBRACE"
  | .lbracket => "LBRACKET"
  | .rbracket => "RBRACKET"
  | .lt => "LT"
  | .gt => "GT"
  | .str _ => "STRING"
  | .number _ => "NUMBER"
  | .identifier _ => "IDENTIFIER"
  | .newline => "NEWLINE"
  | .eof => "EOF"

/-- `/[\d.]/` of the number-scanning loop. -/
def isDigitDot (c : Char) : Bool := c.isDigit || c = '.'

/-- `/[a-zA-Z_]/`, the identifier start class. -/
def isIdentStart (c : Char) : Bool := c.isAlpha || c = '_'

/-- `/[a-zA-Z0-9_]/`, the identifier continuation class. -/
def isIdentChar (c : Char) : Bool := c.isAlphanum || c = '_'

/-- `while (pred(peek())) value += advance()` -/
def scanWhile (p : Char → Bool) : List Char → String × List Char
  | [] => ("", [])
  | c :: cs =>
    if p c then
      let r := scanWhile p cs
      (String.singleton c ++ r.1, r.2)
    else ("", c :: cs)

/-- The string-literal scanning loop
`while (peek() && peek() !== quote) { if (peek() === '\x5c') advance(); value += advance(); }`.
When the escaping backslash is the final input character, `advance()` past the
end returns `undefined` and `value += undefined` appends the text
"undefined"; this is modelled literally. -/
def scanStringBody (q : Char) : List Char → String × List Char
  | [] => ("", [])
  | c :: cs =>
    if c = q then ("", c :: cs)
    else if c = '\x5c' then
      match cs with
      | [] => ("undefined", [])
      | d :: ds =>
        let r := scanStringBody q ds
        (String.singleton d ++ r.1, r.2)
    else
      let r := scanStringBody q cs
      (String.singleton c ++ r.1, r.2)

/-- Prepend a token to the result of the remaining scan. -/
def consTok (t : Tok) (r : Except String (List Tok)) : Except String (List Tok) :=
  r.map (fun ts => t :: ts)

/-- The main `tokenize` loop of `tokenizer-ts.js`, one iteration per fuel
unit.  Every branch mirrors the source's fixed-priority cascade.  Note the
arrow branch: the source tests `char === '=' && peek() === '>'` *before*
advancing, so `peek()` still yields the `'='` itself and the condition can
never hold — `=>` lexes as `ASSIGN` then `GT`.  The condition is kept
verbatim. -/
def tokenizeLoop : Nat → List Char → Except String (List Tok)
  | 0, _ => .error "fuel"
  | _ + 1, [] => .ok [Tok.eof]
  | fuel + 1, c :: cs =>
    if c = ' ' ∨ c = '\t' then tokenizeLoop fuel cs
    else if c = '\n' then consTok .newline (tokenizeLoop fuel cs)
    else if c = '@' then consTok .state (tokenizeLoop fuel cs)
    else if c = '$' then consTok .effect (tokenizeLoop fuel cs)
    else if c = '%' then consTok .memo (tokenizeLoop fuel cs)
    else if c = ':' then
      match cs with
      | ':' :: cs2 => consTok .colonType (tokenizeLoop fuel cs2)
      | _ => consTok .prop (tokenizeLoop fuel cs)
    else if c = '!' then consTok .event (tokenizeLoop fuel cs)
    else if c = '?' then consTok .question (tokenizeLoop fuel cs)
    else if c = '|' then consTok .pipe (tokenizeLoop fuel cs)
    else if c = '&' then consTok .ampersand (tokenizeLoop fuel cs)
    else if c = '+' then
      match cs with
      | '+' :: cs2 => consTok .increment (tokenizeLoop fuel cs2)
      | '=' :: cs2 => consTok .plusAssign (tokenizeLoop fuel cs2)
      | _ => consTok .plus (tokenizeLoop fuel cs)
    else if c = '-' then
      match cs with
      | '-' :: cs2 => consTok .decrement (tokenizeLoop fuel cs2)
      | _ => consTok .minus (tokenizeLoop fuel cs)
    else if c = '=' ∧ c = '>' then
      consTok .arrow (tokenizeLoop fuel (cs.drop 1))
    else if c = '=' then consTok .assign (tokenizeLoop fuel cs)
    else if c = '*' then consTok .multiply (tokenizeLoop fuel cs)
    else if c = '/' then consTok .slash (tokenizeLoop fuel cs)
    else if c = '.' then consTok .dot (tokenizeLoop fuel cs)
    else if c = ',' then consTok .comma (tokenizeLoop fuel cs)
    else if c = '(' then consTok .lparen (tokenizeLoop fuel cs)
    else if c = ')' then consTok .rparen (tokenizeLoop fuel cs)
    else if c = '\x7b' then consTok .lbrace (tokenizeLoop fuel cs)
    else if c = '\x7d' then consTok .rbrace (tokenizeLoop fuel cs)
    else if c = '[' then consTok .lbracket (tokenizeLoop fuel cs)
    else if c = ']' then consTok .rbracket (tokenizeLoop fuel cs)
    else if c = '<' then consTok .lt (tokenizeLoop fuel cs)
    else if c = '>' then consTok .gt (tokenizeLoop fuel cs)
    else if c = '\x22' ∨ c = '\x27' then
      let s := scanStringBody c cs
      consTok (.str s.1) (tokenizeLoop fuel (s.2.drop 1))
    else if c.isDigit then
      let s := scanWhile isDigitDot (c :: cs)
      consTok (.number s.1) (tokenizeLoop fuel s.2)
    else if isIdentStart c then
      let s := scanWhile isIdentChar cs
      consTok (.identifier (String.singleton c ++ s.1)) (tokenizeLoop fuel s.2)
    else .error ("Unexpected character: " ++ String.singleton c)

/-- `tokenize(input)`.  Every loop iteration consumes at least one input
character, so `input.length + 1` fuel always suffices. -/
def tokenize (input : List Char) : Except String (List Tok) :=
  tokenizeLoop (input.length + 1) input

/-- Convenience wrapper taking a `String`. -/
def tokenizeStr (input : String) : Except String (List Tok) :=
  tokenize input.data

/-! ## AST (`parse` in `index.js`) -/

/-- TypeScript type annotations. -/
inductive Ty where
  | simple (name : String)
  | array (elementType : String)
  | union (types : List Ty)
  | generic (name : String) (typeParams : List Ty)
deriving Repr

/-- Expression nodes. -/
inductive Expr where
  | literal (value : String)
  | identifier (name : String)
  | update (target : String) (operator : String) (value : Option Expr)
  | binaryOp (operator : String) (left right : Expr)
  | methodCall (object method : String) (args : List Expr)
  | propertyAccess (object property : String)
  | arrowFunction (params : List String) (body : Expr)
  | arr (elements : List Expr)
deriving Repr

/-- An attribute value: either an expression or the event-handler wrapper
`{type: 'EventHandler', handler}` carrying a bare handler name. -/
inductive AttrValue where
  | expr (e : Expr)
  | eventHandler (handler : String)
deriving Repr

/-- A JSX attribute `{name, value}`. -/
structure Attr where
  name : String
  value : AttrValue
deriving Repr

/-- Markup nodes. -/
inductive JSX where
  | element (tagName : String) (attributes : List Attr) (children : List JSX)
  | fragment (children : List JSX)
  | exprChild (expression : Expr)
  | text (value : String)
  | eachLoop (item : String) (itemType : Option Ty) (list : String) (template : JSX)
deriving Repr

/-- A prop declaration `{name, type}`. -/
structure PropDecl where
  name : String
  type : Option Ty
deriving Repr

/-- A state declaration `{name, type, initialValue}`. -/
structure StateDecl where
  name : String
  type : Option Ty
  initialValue : Expr
deriving Repr

/-- A reducer declaration `{name, initialValue, actions}`. -/
structure ReducerDecl where
  name : String
  initialValue : Expr
  actions : List (String × Expr)
deriving Repr

/-- A context-consumption declaration `{name, type}`. -/
structure CtxDecl where
  name : String
  type : Option Ty
deriving Repr

/-- An effect declaration `{functionName, args}`. -/
structure EffectDecl where
  functionName : String
  args : List Expr
deriving Repr

/-- A memo declaration `{name, type, value}`. -/
structure MemoDecl where
  name : String
  type : Option Ty
  value : Expr
deriving Repr

/-- A named-expression declaration (callbacks `{name, value}` and
imperative handles `{name, value}`). -/
structure NamedExpr where
  name : String
  value : Expr
deriving Repr

/-- A transition declaration `{name}`. -/
structure TransitionDecl where
  name : String
deriving Repr

/-- A ref declaration `{name, type, initialValue}`. -/
structure RefDecl where
  name : String
  type : Option Ty
  initialValue : Option Expr
deriving Repr

/-- A deferred-value declaration `{name, sourceValue}`. -/
structure DeferredDecl where
  name : String
  sourceValue : Expr
deriving Repr

/-- An optimistic-update declaration `{name, state, updateFn}`. -/
structure OptimisticDecl where
  name : String
  state : Expr
  updateFn : Expr
deriving Repr

/-- A `useId` declaration `{name}`. -/
structure IdDecl where
  name : String
deriving Repr

/-- An external-store-sync declaration
`{name, subscribe, getSnapshot, getServerSnapshot}`. -/
structure SyncDecl where
  name : String
  subscribe : Expr
  getSnapshot : Expr
  getServerSnapshot : Option Expr
deriving Repr

/-- An action-state declaration `{name, actionFn, initialState}`. -/
structure ActionStateDecl where
  name : String
  actionFn : Expr
  initialState : Expr
deriving Repr

/-- The component AST.  The parser in `index.js` populates only
`props`/`states`/`reducers`/`contexts`/`effects`/`memos`/`events`/`jsx`;
the remaining collections are read by `generateTypeScript` through
optional-chaining (`ast.handles?.length` etc.) and default to empty. -/
structure Component where
  props : List PropDecl
  states : List StateDecl
  reducers : List ReducerDecl
  contexts : List CtxDecl
  effects : List EffectDecl
  memos : List MemoDecl
  events : List (String × Expr)
  jsx : Option JSX
  handles : List NamedExpr
  transitions : List TransitionDecl
  callbacks : List NamedExpr
  refs : List RefDecl
  layoutEffects : List EffectDecl
  deferredValues : List DeferredDecl
  optimistics : List OptimisticDecl
  ids : List IdDecl
  syncs : List SyncDecl
  actionStates : List ActionStateDecl
deriving Repr

/-- The freshly initialised `ast` object of `parse`. -/
def emptyComponent : Component :=
  { props := [], states := [], reducers := [], contexts := [], effects := []
    memos := [], events := [], jsx := none, handles := [], transitions := []
    callbacks := [], refs := [], layoutEffects := [], deferredValues := []
    optimistics := [], ids := [], syncs := [], actionStates := [] }

/-- `ast.events[name] = handler`: JavaScript object-key assignment keeps the
first-insertion position on overwrite, else appends. -/
def setEvent (events : List (String × Expr)) (name : String) (h : Expr) :
    List (String × Expr) :=
  if events.any (fun p => p.1 = name) then
    events.map (fun p => if p.1 = name then (p.1, h) else p)
  else events ++ [(name, h)]

/-- `skipNewlines()`. -/
def skipNewlines : List Tok → List Tok
  | .newline :: rest => skipNewlines rest
  | ts => ts

mutual

/-- `parsePrimaryType()`. -/
def parsePrimaryType : Nat → List Tok → Except String (Ty × List Tok)
  | 0, _ => .error "fuel"
  | fuel + 1, ts =>
    match ts with
    | .identifier name :: rest =>
      match rest with
      | .lbracket :: r2 =>
        match r2 with
        | .rbracket :: r3 => .ok (.array name, r3)
        | _ => .error "Expected RBRACKET"
      | .lt :: r2 => do
        let (t, r3) ← parseType fuel r2
        let (more, r4) ← parseGenericRest fuel r3
        match r4 with
        | .gt :: r5 => .ok (.generic name (t :: more), r5)
        | _ => .error "Expected GT"
      | _ => .ok (.simple name, rest)
    | t :: _ => .error ("Expected type but got " ++ tokName t)
    | [] => .error "Expected type but got undefined"

/-- The `while (peek COMMA)` loop inside the generic-type branch. -/
def parseGenericRest : Nat → List Tok → Except String (List Ty × List Tok)
  | 0, _ => .error "fuel"
  | fuel + 1, ts =>
    match ts with
    | .comma :: rest => do
      let (t, r2) ← parseType fuel rest
      let (more, r3) ← parseGenericRest fuel r2
      .ok (t :: more, r3)
    | _ => .ok ([], ts)

/-- The `while (peek PIPE)` union loop of `parseType()`. -/
def parseUnionRest : Nat → List Tok → Except String (List Ty × List Tok)
  | 0, _ => .error "fuel"
  | fuel + 1, ts =>
    match ts with
    | .pipe :: rest => do
      let (t, r2) ← parsePrimaryType fuel rest
      let (more, r3) ← parseUnionRest fuel r2
      .ok (t :: more, r3)
    | _ => .ok ([], ts)

/-- `parseType()`. -/
def parseType : Nat → List Tok → Except String (Ty × List Tok)
  | 0, _ => .error "fuel"
  | fuel + 1, ts => do
    let (t, r) ← parsePrimaryType fuel ts
    let (more, r2) ← parseUnionRest fuel r
    .ok (if more.isEmpty then t else .union (t :: more), r2)

/-- `parseTypeAnnotation()`: `null` when the next token is not `::`. -/
def parseTypeAnn : Nat → List Tok → Except String (Option Ty × List Tok)
  | 0, _ => .error "fuel"
  | fuel + 1, ts =>
    match ts with
    | .colonType :: rest => do
      let (t, r) ← parseType fuel rest
      .ok (some t, r)
    | _ => .ok (none, ts)

/-- `parseExpression()`. -/
def parseExpression : Nat → List Tok → Except String (Expr × List Tok)
  | 0, _ => .error "fuel"
  | fuel + 1, ts =>
    match ts with
    | .number v :: rest => .ok (.literal v, rest)
    | .str v :: rest => .ok (.literal ("\x22" ++ v ++ "\x22"), rest)
    | .identifier name :: rest =>
      match rest with
      | .arrow :: r2 => do
        let (body, r3) ← parseExpression fuel r2
        .ok (.arrowFunction [name] body, r3)
      | .increment :: r2 => .ok (.update name "++" none, r2)
      | .decrement :: r2 => .ok (.update name "--" none, r2)
      | .plusAssign :: r2 => do
        let (v, r3) ← parseExpression fuel r2
        .ok (.update name "+=" (some v), r3)
      | .plus :: r2 => do
        let (right, r3) ← parseExpression fuel r2
        .ok (.binaryOp "+" (.identifier name) right, r3)
      | .minus :: r2 => do
        let (right, r3) ← parseExpression fuel r2
        .ok (.binaryOp "-" (.identifier name) right, r3)
      | .multiply :: r2 => do
        let (right, r3) ← parseExpression fuel r2
        .ok (.binaryOp "*" (.identifier name) right, r3)
      | .slash :: r2 => do
        let (right, r3) ← parseExpression fuel r2
        .ok (.binaryOp "/" (.identifier name) right, r3)
      | .dot :: r2 =>
        match r2 with
        | .identifier property :: r3 =>
          match r3 with
          | .lparen :: r4 => do
            let (args, r5) ← parseCallArgs fuel r4
            .ok (.methodCall name property args, r5)
          | _ => .ok (.propertyAccess name property, r3)
        | _ => .error "Expected property or method name"
      | _ => .ok (.identifier name, rest)
    | .lbracket :: rest => do
      let (elements, r2) ← parseArrayElems fuel rest
      .ok (.arr elements, r2)
    | t :: _ => .error ("Unexpected token in expression: " ++ tokName t)
    | [] => .error "Unexpected token in expression: undefined"

/-- The argument loop of the method-call branch: `while (peek !== RPAREN)`,
consuming the closing parenthesis. -/
def parseCallArgs : Nat → List Tok → Except String (List Expr × List Tok)
  | 0, _ => .error "fuel"
  | fuel + 1, ts =>
    match ts with
    | .rparen :: rest => .ok ([], rest)
    | _ => do
      let (e, r2) ← parseExpression fuel ts
      let r3 := match r2 with
        | .comma :: r => r
        | _ => r2
      let (es, r4) ← parseCallArgs fuel r3
      .ok (e :: es, r4)

/-- The element loop of the array branch: `while (peek !== RBRACKET)`,
consuming the closing bracket. -/
def parseArrayElems : Nat → List Tok → Except String (List Expr × List Tok)
  | 0, _ => .error "fuel"
  | fuel + 1, ts =>
    match ts with
    | .rbracket :: rest => .ok ([], rest)
    | _ => do
      let (e, r2) ← parseExpression fuel ts
      let r3 := match r2 with
        | .comma :: r => r
        | _ => r2
      let (es, r4) ← parseArrayElems fuel r3
      .ok (e :: es, r4)

end

mutual

/-- The action loop of `parseReducerValue()`: `while (peek !== RBRACE)`,
consuming the closing brace of the actions object. -/
def parseReducerActions : Nat → List Tok → Except String (List (String × Expr) × List Tok)
  | 0, _ => .error "fuel"
  | fuel + 1, ts =>
    match ts with
    | .rbrace :: rest => .ok ([], rest)
    | .identifier actionName :: rest =>
      match rest with
      | .prop :: r2 => do
        let (handler, r3) ← parseExpression fuel r2
        let r4 := match r3 with
          | .comma :: r => r
          | _ => r3
        let (more, r5) ← parseReducerActions fuel r4
        .ok ((actionName, handler) :: more, r5)
      | t :: _ => .error ("Expected PROP but got " ++ tokName t)
      | [] => .error "Expected PROP but got undefined"
    | t :: _ => .error ("Expected action name, got " ++ tokName t)
    | [] => .error "Expected action name, got undefined"

/-- `parseReducerValue()`. -/
def parseReducerValue : Nat → List Tok → Except String ((Expr × List (String × Expr)) × List Tok)
  | 0, _ => .error "fuel"
  | fuel + 1, ts =>
    match ts with
    | .lbrace :: rest => do
      let (initialValue, r2) ← parseExpression fuel rest
      match r2 with
      | .comma :: r3 =>
        match r3 with
        | .lbrace :: r4 => do
          let (actions, r5) ← parseReducerActions fuel r4
          match r5 with
          | .rbrace :: r6 => .ok ((initialValue, actions), r6)
          | t :: _ => .error ("Expected RBRACE but got " ++ tokName t)
          | [] => .error "Expected RBRACE but got undefined"
        | t :: _ => .error ("Expected LBRACE but got " ++ tokName t)
        | [] => .error "Expected LBRACE but got undefined"
      | t :: _ => .error ("Expected COMMA but got " ++ tokName t)
      | [] => .error "Expected COMMA but got undefined"
    | _ => do
      let (v, r) ← parseExpression fuel ts
      .ok ((v, []), r)

end

mutual

/-- The attribute loop of `parseJSXElement()`:
`while (peek !== GT && peek !== SLASH)`.  Tokens matching no attribute form
are skipped; exhausting the token list loops forever in the source and
burns fuel here. -/
def parseAttrs : Nat → List Tok → Except String (List Attr × List Tok)
  | 0, _ => .error "fuel"
  | fuel + 1, ts =>
    match ts with
    | .gt :: _ => .ok ([], ts)
    | .slash :: _ => .ok ([], ts)
    | .state :: .identifier name :: rest =>
      match rest with
      | .assign :: .identifier v :: r2 => do
        let (more, r3) ← parseAttrs fuel r2
        .ok ({ name := name, value := .eventHandler v } :: more, r3)
      | .assign :: t :: _ => .error ("Expected IDENTIFIER but got " ++ tokName t)
      | .assign :: [] => .error "Expected IDENTIFIER but got undefined"
      | t :: _ => .error ("Expected ASSIGN but got " ++ tokName t)
      | [] => .error "Expected ASSIGN but got undefined"
    | .identifier name :: rest =>
      match rest with
      | .assign :: r2 =>
        match r2 with
        | .lbrace :: r3 => do
          let (v, r4) ← parseExpression fuel r3
          match r4 with
          | .rbrace :: r5 => do
            let (more, r6) ← parseAttrs fuel r5
            .ok ({ name := name, value := .expr v } :: more, r6)
          | t :: _ => .error ("Expected RBRACE but got " ++ tokName t)
          | [] => .error "Expected RBRACE but got undefined"
        | _ => do
          let (v, r3) ← parseExpression fuel r2
          let (more, r4) ← parseAttrs fuel r3
          .ok ({ name := name, value := .expr v } :: more, r4)
      | _ => do
        let (more, r2) ← parseAttrs fuel rest
        .ok ({ name := name, value := .expr (.literal "true") } :: more, r2)
    | _ :: rest => parseAttrs fuel rest
    | [] => parseAttrs fuel []

/-- The child loop of `parseJSXElement()`:
`while (!(peek LT && peek(1) SLASH))`.  Unknown tokens are skipped;
exhausting the token list loops forever in the source and burns fuel
here. -/
def parseChildren : Nat → List Tok → Except String (List JSX × List Tok)
  | 0, _ => .error "fuel"
  | fuel + 1, ts =>
    match ts with
    | .lt :: .slash :: _ => .ok ([], ts)
    | .lt :: .identifier "each" :: _ => do
      let (loop, r) ← parseEachLoop fuel ts
      let (more, r2) ← parseChildren fuel r
      .ok (loop :: more, r2)
    | .lt :: _ => do
      let (el, r) ← parseJSXElement fuel ts
      let (more, r2) ← parseChildren fuel r
      .ok (el :: more, r2)
    | .lbrace :: rest => do
      let (e, r) ← parseExpression fuel rest
      match r with
      | .rbrace :: r2 => do
        let (more, r3) ← parseChildren fuel r2
        .ok (.exprChild e :: more, r3)
      | t :: _ => .error ("Expected RBRACE but got " ++ tokName t)
      | [] => .error "Expected RBRACE but got undefined"
    | .identifier v :: rest => do
      let (more, r) ← parseChildren fuel rest
      .ok (.text v :: more, r)
    | .str v :: rest => do
      let (more, r) ← parseChildren fuel rest
      .ok (.text v :: more, r)
    | .number v :: rest => do
      let (more, r) ← parseChildren fuel rest
      .ok (.text v :: more, r)
    | .minus :: rest => do
      let (more, r) ← parseChildren fuel rest
      .ok (.text "-" :: more, r)
    | .plus :: rest => do
      let (more, r) ← parseChildren fuel rest
      .ok (.text "+" :: more, r)
    | .prop :: rest => do
      let (more, r) ← parseChildren fuel rest
      .ok (.text ":" :: more, r)
    | _ :: rest => parseChildren fuel rest
    | [] => parseChildren fuel []

/-- `parseJSXElement()`. -/
def parseJSXElement : Nat → List Tok → Except String (JSX × List Tok)
  | 0, _ => .error "fuel"
  | fuel + 1, ts =>
    match ts with
    | .lt :: rest =>
      match rest with
      | .identifier tagName :: r2 => do
        let (attributes, r3) ← parseAttrs fuel r2
        match r3 with
        | .slash :: r4 =>
          match r4 with
          | .gt :: r5 => .ok (.element tagName attributes [], r5)
          | t :: _ => .error ("Expected GT but got " ++ tokName t)
          | [] => .error "Expected GT but got undefined"
        | .gt :: r4 => do
          let (children, r5) ← parseChildren fuel r4
          match r5 with
          | .lt :: .slash :: .identifier closingTag :: r6 =>
            if closingTag ≠ tagName then
              .error ("Mismatched closing tag: expected " ++ tagName ++
                " but got " ++ closingTag)
            else
              match r6 with
              | .gt :: r7 => .ok (.element tagName attributes children, r7)
              | t :: _ => .error ("Expected GT but got " ++ tokName t)
              | [] => .error "Expected GT but got undefined"
          | .lt :: .slash :: t :: _ => .error ("Expected IDENTIFIER but got " ++ tokName t)
          | _ => .error "Expected LT"
        | t :: _ => .error ("Expected GT but got " ++ tokName t)
        | [] => .error "Expected GT but got undefined"
      | t :: _ => .error ("Expected tag name, got " ++ tokName t)
      | [] => .error "Expected tag name, got undefined"
    | t :: _ => .error ("Expected LT but got " ++ tokName t)
    | [] => .error "Expected LT but got undefined"

/-- `parseEachLoop()`.  Note: the closing tag is consumed as
`consume(LT); consume(SLASH); consume(IDENTIFIER); consume(GT)` — the
closing identifier's value is never compared with "each". -/
def parseEachLoop : Nat → List Tok → Except String (JSX × List Tok)
  | 0, _ => .error "fuel"
  | fuel + 1, ts =>
    match ts with
    | .lt :: rest =>
      match rest with
      | .identifier eachWord :: r2 =>
        if eachWord ≠ "each" then .error "Expected \x22each\x22 in loop"
        else
          match r2 with
          | .identifier item :: r3 => do
            let (itemType, r4) ←
              match r3 with
              | .colonType :: _ => parseTypeAnn fuel r3
              | _ => (.ok (none, r3) : Except String (Option Ty × List Tok))
            match r4 with
            | .identifier inWord :: r5 =>
              if inWord ≠ "in" then .error "Expected \x22in\x22 in each loop"
              else
                match r5 with
                | .identifier list :: r6 =>
                  match r6 with
                  | .gt :: r7 => do
                    let (template, r9) ← parseJSXElement fuel (skipNewlines r7)
                    match skipNewlines r9 with
                    | .lt :: .slash :: .identifier _ :: .gt :: r10 =>
                      .ok (.eachLoop item itemType list template, r10)
                    | .lt :: .slash :: .identifier _ :: t :: _ =>
                      .error ("Expected GT but got " ++ tokName t)
                    | .lt :: .slash :: t :: _ =>
                      .error ("Expected IDENTIFIER but got " ++ tokName t)
                    | .lt :: .slash :: [] => .error "Expected IDENTIFIER but got undefined"
                    | .lt :: t :: _ => .error ("Expected SLASH but got " ++ tokName t)
                    | t :: _ => .error ("Expected LT but got " ++ tokName t)
                    | [] => .error "Expected LT but got undefined"
                  | t :: _ => .error ("Expected GT but got " ++ tokName t)
                  | [] => .error "Expected GT but got undefined"
                | t :: _ => .error ("Expected list variable, got " ++ tokName t)
                | [] => .error "Expected list variable, got undefined"
            | t :: _ => .error ("Expected IDENTIFIER but got " ++ tokName t)
            | [] => .error "Expected IDENTIFIER but got undefined"
          | t :: _ => .error ("Expected item variable, got " ++ tokName t)
          | [] => .error "Expected item variable, got undefined"
      | t :: _ => .error ("Expected IDENTIFIER but got " ++ tokName t)
      | [] => .error "Expected IDENTIFIER but got undefined"
    | t :: _ => .error ("Expected LT but got " ++ tokName t)
    | [] => .error "Expected LT but got undefined"

/-- The element loop of `parseJSX()`:
`while (!isAtEnd() && peek LT) { parseJSXElement(); skipNewlines(); }`. -/
def parseJSXList : Nat → List Tok → Except String (List JSX × List Tok)
  | 0, _ => .error "fuel"
  | fuel + 1, ts =>
    match ts with
    | .lt :: _ => do
      let (el, r) ← parseJSXElement fuel ts
      let (more, r2) ← parseJSXList fuel (skipNewlines r)
      .ok (el :: more, r2)
    | _ => .ok ([], ts)

end

/-- `parseJSX()`: a single element passes through, anything else becomes a
fragment. -/
def parseJSX (fuel : Nat) (ts : List Tok) : Except String (JSX × List Tok) := do
  let (elements, r) ← parseJSXList fuel ts
  match elements with
  | [e] => .ok (e, r)
  | es => .ok (.fragment es, r)

/-- `parseProp()`. -/
def parsePropDecl (fuel : Nat) : List Tok → Except String (PropDecl × List Tok)
  | .prop :: rest =>
    match rest with
    | .identifier name :: r2 => do
      let (ty, r3) ← parseTypeAnn fuel r2
      .ok ({ name := name, type := ty }, r3)
    | t :: _ => .error ("Expected prop name, got " ++ tokName t)
    | [] => .error "Expected prop name, got undefined"
  | t :: _ => .error ("Expected PROP but got " ++ tokName t)
  | [] => .error "Expected PROP but got undefined"

/-- The two possible results of `parseState()`: an `ast.states` push or an
`ast.reducers` push (for the `:reducer` modifier). -/
inductive StateOrReducer where
  | stateDecl (s : StateDecl)
  | reducerDecl (r : ReducerDecl)
deriving Repr

/-- `parseState()`. -/
def parseStateDecl (fuel : Nat) : List Tok → Except String (StateOrReducer × List Tok)
  | .state :: rest =>
    match rest with
    | .identifier name :: r2 =>
      match r2 with
      | .prop :: .identifier "reducer" :: r3 =>
        match r3 with
        | .assign :: r4 => do
          let (rv, r5) ← parseReducerValue fuel r4
          .ok (.reducerDecl { name := name, initialValue := rv.1, actions := rv.2 }, r5)
        | t :: _ => .error ("Expected ASSIGN but got " ++ tokName t)
        | [] => .error "Expected ASSIGN but got undefined"
      | _ => do
        let (ty, r3) ← parseTypeAnn fuel r2
        match r3 with
        | .assign :: r4 => do
          let (v, r5) ← parseExpression fuel r4
          .ok (.stateDecl { name := name, type := ty, initialValue := v }, r5)
        | t :: _ => .error ("Expected ASSIGN but got " ++ tokName t)
        | [] => .error "Expected ASSIGN but got undefined"
    | t :: _ => .error ("Expected state name, got " ++ tokName t)
    | [] => .error "Expected state name, got undefined"
  | t :: _ => .error ("Expected STATE but got " ++ tokName t)
  | [] => .error "Expected STATE but got undefined"

/-- `parseEffect()`. -/
def parseEffectDecl (fuel : Nat) : List Tok → Except String (EffectDecl × List Tok)
  | .effect :: rest =>
    match rest with
    | .identifier functionName :: r2 =>
      match r2 with
      | .lparen :: r3 => do
        let (args, r4) ← parseCallArgs fuel r3
        .ok ({ functionName := functionName, args := args }, r4)
      | t :: _ => .error ("Expected LPAREN but got " ++ tokName t)
      | [] => .error "Expected LPAREN but got undefined"
    | t :: _ => .error ("Expected function name, got " ++ tokName t)
    | [] => .error "Expected function name, got undefined"
  | t :: _ => .error ("Expected EFFECT but got " ++ tokName t)
  | [] => .error "Expected EFFECT but got undefined"

/-- `parseMemo()`. -/
def parseMemoDecl (fuel : Nat) : List Tok → Except String (MemoDecl × List Tok)
  | .memo :: rest =>
    match rest with
    | .identifier name :: r2 => do
      let (ty, r3) ← parseTypeAnn fuel r2
      match r3 with
      | .assign :: r4 => do
        let (v, r5) ← parseExpression fuel r4
        .ok ({ name := name, type := ty, value := v }, r5)
      | t :: _ => .error ("Expected ASSIGN but got " ++ tokName t)
      | [] => .error "Expected ASSIGN but got undefined"
    | t :: _ => .error ("Expected memo name, got " ++ tokName t)
    | [] => .error "Expected memo name, got undefined"
  | t :: _ => .error ("Expected MEMO but got " ++ tokName t)
  | [] => .error "Expected MEMO but got undefined"

/-- `parseEvent()`. -/
def parseEventDecl (fuel : Nat) : List Tok → Except String ((String × Expr) × List Tok)
  | .event :: rest =>
    match rest with
    | .identifier name :: r2 =>
      match r2 with
      | .assign :: r3 => do
        let (handler, r4) ← parseExpression fuel r3
        .ok ((name, handler), r4)
      | t :: _ => .error ("Expected ASSIGN but got " ++ tokName t)
      | [] => .error "Expected ASSIGN but got undefined"
    | t :: _ => .error ("Expected event name, got " ++ tokName t)
    | [] => .error "Expected event name, got undefined"
  | t :: _ => .error ("Expected EVENT but got " ++ tokName t)
  | [] => .error "Expected EVENT but got undefined"

/-- The main dispatch loop of `parse()`.  The source's
`case TOKEN_TYPES.CONTEXT` compares against a constant that the tokenizer
never defines (it is `undefined`), while every token's `type` is a defined
string — that case can never match, and `parseContext` is unreachable dead
code, so neither appears here; an `&` token falls through to the default
branch and raises. -/
def parseLoop : Nat → List Tok → Component → Except String Component
  | 0, _, _ => .error "fuel"
  | fuel + 1, ts, ast =>
    match skipNewlines ts with
    | [] => .ok ast
    | .eof :: _ => .ok ast
    | .prop :: _ => do
      let (p, r) ← parsePropDecl fuel (skipNewlines ts)
      parseLoop fuel r { ast with props := ast.props ++ [p] }
    | .state :: _ => do
      let (sr, r) ← parseStateDecl fuel (skipNewlines ts)
      match sr with
      | .stateDecl s => parseLoop fuel r { ast with states := ast.states ++ [s] }
      | .reducerDecl rd => parseLoop fuel r { ast with reducers := ast.reducers ++ [rd] }
    | .effect :: _ => do
      let (e, r) ← parseEffectDecl fuel (skipNewlines ts)
      parseLoop fuel r { ast with effects := ast.effects ++ [e] }
    | .memo :: _ => do
      let (m, r) ← parseMemoDecl fuel (skipNewlines ts)
      parseLoop fuel r { ast with memos := ast.memos ++ [m] }
    | .event :: _ => do
      let (ev, r) ← parseEventDecl fuel (skipNewlines ts)
      parseLoop fuel r { ast with events := setEvent ast.events ev.1 ev.2 }
    | .lt :: _ => do
      let (j, r) ← parseJSX fuel (skipNewlines ts)
      parseLoop fuel r { ast with jsx := some j }
    | t :: _ => .error ("Unexpected token: " ++ tokName t)

/-- `parse(tokens)` with fuel generous enough for any input that the source
parses without diverging. -/
def parse (ts : List Tok) : Except String Component :=
  parseLoop ((ts.length + 2) * 10) ts emptyComponent

/-! ## Generator, typed variant (`generateTypeScript` in `generator-ts.js`).
The source-map side artifact records positions only and never alters the
emitted lines; it is not modelled.  The output is modelled as the list of
emitted lines (`lines` in the source), joined with newlines at the end. -/

/-- `capitalize(str)`: `str.charAt(0).toUpperCase() + str.slice(1)`.
`Char.toUpper` agrees with JavaScript `toUpperCase` on the ASCII
identifiers produced by the lexer. -/
def capitalize (s : String) : String :=
  match s.data with
  | [] => ""
  | c :: cs => String.mk (c.toUpper :: cs)

/-- The updater name `set${capitalize(name)}` (computed as `setter` in
`generateEventHandler` and inline in the `useState` template). -/
def setterName (n : String) : String := "set" ++ capitalize n

/-- `reducerName` of the source: `${reducer.name}Reducer`. -/
def reducerFnName (n : String) : String := n ++ "Reducer"

/-- `dispatchName` of the source: `dispatch${capitalize(reducer.name)}`. -/
def dispatchName (n : String) : String := "dispatch" ++ capitalize n

/-- `isPendingName` of the source: `isPending${capitalize(name)}`. -/
def isPendingName (n : String) : String := "isPending" ++ capitalize n

/-- `startTransitionName` of the source:
`start${capitalize(transition.name)}Transition`. -/
def startTransitionName (n : String) : String := "start" ++ capitalize n ++ "Transition"

/-- `addFnName` of the source: `add${capitalize(optimistic.name)}`. -/
def addFnName (n : String) : String := "add" ++ capitalize n

/-- `formActionName` of the source: `${actionState.name}Action`. -/
def formActionName (n : String) : String := n ++ "Action"

/-- `contextObjectName` of the source: `${capitalize(context.name)}Context`. -/
def contextObjectName (n : String) : String := capitalize n ++ "Context"

/-- The `typeMap` lookup of `typeToTypeScript`'s `SimpleType` case
(`str`/`num`/`bool` map to the full names, anything else passes through).
The `ArrayType` case of the source recurses with a fresh `SimpleType`
node, which lands here as well. -/
def simpleTypeToTS (name : String) : String :=
  if name = "str" then "string"
  else if name = "num" then "number"
  else if name = "bool" then "boolean"
  else name

mutual

/-- `typeToTypeScript(type)` (on a non-null type). -/
def typeToTypeScript : Ty → String
  | .simple name => simpleTypeToTS name
  | .array elementType => simpleTypeToTS elementType ++ "[]"
  | .union types => String.intercalate " | " (typeListToTS types)
  | .generic name typeParams =>
    name ++ "<" ++ String.intercalate ", " (typeListToTS typeParams) ++ ">"

/-- `type.types.map(typeToTypeScript)`. -/
def typeListToTS : List Ty → List String
  | [] => []
  | t :: ts => typeToTypeScript t :: typeListToTS ts

end

mutual

/-- `expressionToJS(expr)` (on a non-null expression). -/
def expressionToJS : Expr → String
  | .literal value => value
  | .identifier name => name
  | .update target op value =>
    if op = "++" then target ++ " + 1"
    else if op = "--" then target ++ " - 1"
    else if op = "+=" then
      match value with
      | some v => target ++ " + " ++ expressionToJS v
      | none => target
    else target
  | .binaryOp op left right =>
    expressionToJS left ++ " " ++ op ++ " " ++ expressionToJS right
  | .methodCall object method args =>
    object ++ "." ++ method ++ "(" ++ String.intercalate ", " (exprListToJS args) ++ ")"
  | .propertyAccess object property => object ++ "." ++ property
  | .arrowFunction params body =>
    "(" ++ String.intercalate ", " params ++ ") => " ++ expressionToJS body
  | .arr elements =>
    "[" ++ String.intercalate ", " (exprListToJS elements) ++ "]"

/-- `args.map(expressionToJS)`. -/
def exprListToJS : List Expr → List String
  | [] => []
  | e :: es => expressionToJS e :: exprListToJS es

end

/-- `expressionToJSWithReplacement(expr, from, to)`. -/
def expressionToJSWithReplacement : Expr → String → String → String
  | .identifier name, fromName, toName =>
    if name = fromName then toName else expressionToJS (.identifier name)
  | .binaryOp op left right, fromName, toName =>
    expressionToJSWithReplacement left fromName toName ++ " " ++ op ++ " " ++
      expressionToJSWithReplacement right fromName toName
  | e, _, _ => expressionToJS e

/-- `arrowFunctionBodyToJS(expr, paramReplacement)`. -/
def arrowFunctionBodyToJS (e : Expr) (paramReplacement : Option String) : String :=
  match e with
  | .arrowFunction params body =>
    match paramReplacement, params with
    | some toName, p :: _ => expressionToJSWithReplacement body p toName
    | _, _ => expressionToJS body
  | _ => expressionToJS e

/-- `generateEventHandler(handler, states)`; the `states` parameter is
never read by the source and is dropped. -/
def generateEventHandler (handler : Expr) : String :=
  match handler with
  | .update target op value =>
    let setter := setterName target
    if op = "++" then "() => " ++ setter ++ "(" ++ target ++ " + 1)"
    else if op = "--" then "() => " ++ setter ++ "(" ++ target ++ " - 1)"
    else if op = "+=" then
      match value with
      | some v => "() => " ++ setter ++ "(" ++ target ++ " + " ++ expressionToJS v ++ ")"
      | none => "() => " ++ expressionToJS handler
    else "() => " ++ expressionToJS handler
  | .methodCall object method args =>
    if method = "push" then
      "() => " ++ setterName object ++ "([..." ++ object ++ ", " ++
        String.intercalate ", " (exprListToJS args) ++ "])"
    else "() => " ++ expressionToJS handler
  | _ => "() => " ++ expressionToJS handler

mutual

/-- The `traverse` closure of `extractDependencies`, with the mutable
`deps` array threaded explicitly.  An `Identifier` is pushed only if not
already present; a `MethodCall` receiver (`node.object`) is pushed
unconditionally; every other node kind collects nothing. -/
def extractDepsAux : Expr → List String → List String
  | .identifier name, deps =>
    if deps.contains name then deps else deps ++ [name]
  | .binaryOp _ left right, deps => extractDepsAux right (extractDepsAux left deps)
  | .methodCall object _ args, deps => extractDepsList args (deps ++ [object])
  | _, deps => deps

/-- `node.args.forEach(traverse)`. -/
def extractDepsList : List Expr → List String → List String
  | [], deps => deps
  | a :: rest, deps => extractDepsList rest (extractDepsAux a deps)

end

/-- `extractDependencies(expr)`. -/
def extractDependencies (e : Expr) : List String :=
  extractDepsAux e []

/-- The dependency computation of the `useCallback` emission:
`extractDependencies(callback.value.body)` filtered by
`!params.includes(dep)`.  On a non-arrow value, `value.body` and
`value.params` are `undefined`, traversal collects nothing and `params`
defaults to `[]`. -/
def callbackDeps (value : Expr) : List String :=
  let allDeps := match value with
    | .arrowFunction _ body => extractDependencies body
    | _ => []
  let params := match value with
    | .arrowFunction ps _ => ps
    | _ => []
  allDeps.filter (fun dep => !(params.contains dep))

/-- `' '.repeat(indent)`. -/
def spacesN (n : Nat) : String := String.mk (List.replicate n ' ')

/-- The tag-alias object of the typed `generateJSXElement`; every entry
except `btn` maps to itself and absent keys fall back to the tag name. -/
def htmlTagForTS (tagName : String) : String :=
  if tagName = "btn" then "button"
  else if tagName = "input" then "input"
  else if tagName = "p" then "p"
  else if tagName = "div" then "div"
  else if tagName = "span" then "span"
  else if tagName = "ul" then "ul"
  else if tagName = "li" then "li"
  else if tagName = "h1" then "h1"
  else if tagName = "h2" then "h2"
  else if tagName = "h3" then "h3"
  else tagName

/-- The `eventMap` lookup with the `on` + capitalized fallback. -/
def reactEventFor (name : String) : String :=
  if name = "click" then "onClick"
  else if name = "change" then "onChange"
  else if name = "submit" then "onSubmit"
  else "on" ++ capitalize name

/-- One attribute of the typed `generateJSXElement`'s `attrs` map. -/
def renderAttrTS (a : Attr) : String :=
  match a.value with
  | .eventHandler handler => reactEventFor a.name ++ "=\x7b" ++ handler ++ "\x7d"
  | .expr e =>
    if a.name = "val" then
      let valueExpr := expressionToJS e
      match e with
      | .identifier n =>
        "value=\x7b" ++ valueExpr ++ "\x7d onChange=\x7b(e) => " ++
          setterName n ++ "(e.target.value)\x7d"
      | _ => "value=\x7b" ++ valueExpr ++ "\x7d"
    else if a.name = "on" then "onChange=\x7b" ++ expressionToJS e ++ "\x7d"
    else a.name ++ "=\x7b" ++ expressionToJS e ++ "\x7d"

/-- `child.type === 'JSXText' || child.type === 'JSXExpression'`. -/
def isTextOrExpr : JSX → Bool
  | .text _ => true
  | .exprChild _ => true
  | _ => false

mutual

/-- `generateJSX(jsx, events, indent)` on a non-null node; the unused
`events` parameter is dropped. -/
def generateJSX : JSX → Nat → String
  | .element tagName attributes children, indent =>
    generateJSXElementCore tagName attributes children indent
  | .fragment children, indent =>
    spacesN indent ++ "<>\n" ++
      String.intercalate "\n" (generateJSXList children (indent + 2)) ++
      "\n" ++ spacesN indent ++ "</>"
  | .exprChild e, _ => "\x7b" ++ expressionToJS e ++ "\x7d"
  | .text v, _ => v
  | .eachLoop item itemType listName template, indent =>
    generateEachLoopCore item itemType listName template indent
termination_by j _ => (sizeOf j, 0)

/-- `jsx.children.map(child => generateJSX(child, events, indent + 2))`
(the fragment case; the `indent` received here is already increased). -/
def generateJSXList : List JSX → Nat → List String
  | [], _ => []
  | c :: cs, indent => generateJSX c indent :: generateJSXList cs indent
termination_by l _ => (sizeOf l, 0)

/-- `generateJSXElement(element, events, indent)`, destructured. -/
def generateJSXElementCore (tagName : String) (attributes : List Attr)
    (children : List JSX) (indent : Nat) : String :=
  let spaces := spacesN indent
  let htmlTagName := htmlTagForTS tagName
  let attrs := attributes.map renderAttrTS
  let attrString := if attrs.length > 0 then " " ++ String.intercalate " " attrs else ""
  if children.length = 0 then
    spaces ++ "<" ++ htmlTagName ++ attrString ++ " />"
  else if children.all isTextOrExpr then
    let childContent := String.intercalate " " (children.map (fun child =>
      match child with
      | .text v => v
      | .exprChild e => "\x7b" ++ expressionToJS e ++ "\x7d"
      | _ => ""))
    spaces ++ "<" ++ htmlTagName ++ attrString ++ ">" ++ childContent ++
      "</" ++ htmlTagName ++ ">"
  else
    spaces ++ "<" ++ htmlTagName ++ attrString ++ ">\n" ++
      String.intercalate "\n" (generateJSXChildrenComplex children indent) ++
      "\n" ++ spaces ++ "</" ++ htmlTagName ++ ">"
termination_by (sizeOf children, 1)

/-- The complex-children map of `generateJSXElement` (text and expression
children are indented two deeper than the parent; element children recurse
with `indent + 2`). -/
def generateJSXChildrenComplex : List JSX → Nat → List String
  | [], _ => []
  | c :: cs, indent =>
    (match c with
     | .text v => spacesN indent ++ "  " ++ v
     | .exprChild e => spacesN indent ++ "  \x7b" ++ expressionToJS e ++ "\x7d"
     | other => generateJSX other (indent + 2)) ::
    generateJSXChildrenComplex cs indent
termination_by l _ => (sizeOf l, 0)

/-- `generateEachLoop(loop, events, indent)`.  The source calls
`generateJSXElement` directly on `loop.template`; the parser only ever
stores a `JSXElement` there (any other node would make the source fault on
the destructuring), so non-element templates are mapped to the empty
string. -/
def generateEachLoopCore (item : String) (itemType : Option Ty)
    (listName : String) (template : JSX) (indent : Nat) : String :=
  let spaces := spacesN indent
  let templateStr :=
    (match template with
     | .element t a c => generateJSXElementCore t a c 0
     | _ => "").trim
  let itemTypeStr := match itemType with
    | some t => ": " ++ typeToTypeScript t
    | none => ""
  let itemized := templateStr.replace ("\x7b" ++ item ++ "\x7d") "\x7bitem\x7d"
  spaces ++ "\x7b" ++ listName ++ ".map((item" ++ itemTypeStr ++ ", index) => (\n" ++
    spaces ++ "  " ++ itemized ++ "\n" ++ spaces ++ "))\x7d"
termination_by (sizeOf template, 1)

end

/-- The `imports` array built at the top of `generateTypeScript`. -/
def tsImports (ast : Component) : List String :=
  ["React"]
  ++ (if ast.handles.length > 0 then ["forwardRef"] else [])
  ++ (if ast.states.length > 0 then ["useState"] else [])
  ++ (if ast.reducers.length > 0 then ["useReducer"] else [])
  ++ (if ast.transitions.length > 0 then ["useTransition"] else [])
  ++ (if ast.contexts.length > 0 then ["useContext"] else [])
  ++ (if ast.callbacks.length > 0 then ["useCallback"] else [])
  ++ (if ast.refs.length > 0 then ["useRef"] else [])
  ++ (if ast.handles.length > 0 then ["useImperativeHandle"] else [])
  ++ (if ast.effects.length > 0 then ["useEffect"] else [])
  ++ (if ast.layoutEffects.length > 0 then ["useLayoutEffect"] else [])
  ++ (if ast.memos.length > 0 then ["useMemo"] else [])
  ++ (if ast.deferredValues.length > 0 then ["useDeferredValue"] else [])
  ++ (if ast.optimistics.length > 0 then ["useOptimistic"] else [])
  ++ (if ast.ids.length > 0 then ["useId"] else [])
  ++ (if ast.syncs.length > 0 then ["useSyncExternalStore"] else [])
  ++ (if ast.actionStates.length > 0 then ["useActionState"] else [])

/-- The first emitted line, `import <importList> from 'react';`. -/
def tsImportLine (ast : Component) : String :=
  let imports := tsImports ast
  let importList :=
    if imports.length > 1 then
      "React, \x7b " ++ String.intercalate ", " (imports.drop 1) ++ " \x7d"
    else "React"
  "import " ++ importList ++ " from \x27react\x27;"

/-- A context-object import line. -/
def ctxImportLine (c : CtxDecl) : String :=
  "import \x7b " ++ contextObjectName c.name ++ " \x7d from \x27./" ++
    contextObjectName c.name ++ "\x27;"

/-- The props interface block (typed output only). -/
def propsInterfaceBlock (ast : Component) (componentName : String) : List String :=
  if ast.props.length > 0 then
    ["interface " ++ componentName ++ "Props \x7b"]
    ++ ast.props.map (fun p =>
      let typeStr := match p.type with
        | some t => typeToTypeScript t
        | none => ""
      "  " ++ p.name ++ ": " ++ (if typeStr = "" then "any" else typeStr) ++ ";")
    ++ ["\x7d", ""]
  else []

/-- One reducer function block. -/
def reducerFnBlock (r : ReducerDecl) : List String :=
  ["function " ++ reducerFnName r.name ++ "(state, action) \x7b",
   "  switch (action.type) \x7b"]
  ++ r.actions.map (fun a =>
    "    case \x27" ++ a.1 ++ "\x27: return " ++
      arrowFunctionBodyToJS a.2 (some "state") ++ ";")
  ++ ["    default: return state;", "  \x7d", "\x7d", ""]

/-- The component signature line (plain function, or `forwardRef` wrapper
when imperative handles exist). -/
def componentSignature (ast : Component) (componentName : String) : String :=
  let propsParam :=
    if ast.props.length > 0 then
      "\x7b " ++ String.intercalate ", " (ast.props.map (fun p => p.name)) ++
        " \x7d: " ++ componentName ++ "Props"
    else ""
  if ast.handles.length > 0 then
    let propsParamForRef := if ast.props.length > 0 then propsParam else "props"
    "const " ++ componentName ++ " = forwardRef((" ++ propsParamForRef ++ ", ref) => \x7b"
  else
    "function " ++ componentName ++ "(" ++ propsParam ++ ") \x7b"

/-- `<Type>` suffix of a typed hook call, or empty. -/
def hookTypeSuffix (t : Option Ty) : String :=
  match t with
  | some ty => "<" ++ typeToTypeScript ty ++ ">"
  | none => ""

/-- One `useState` line. -/
def stateLine (s : StateDecl) : String :=
  "  const [" ++ s.name ++ ", " ++ setterName s.name ++ "] = useState" ++
    hookTypeSuffix s.type ++ "(" ++ expressionToJS s.initialValue ++ ");"

/-- One `useId` line. -/
def idLine (i : IdDecl) : String :=
  "  const " ++ i.name ++ " = useId();"

/-- One `useDeferredValue` line. -/
def deferredLine (d : DeferredDecl) : String :=
  "  const " ++ d.name ++ " = useDeferredValue(" ++ expressionToJS d.sourceValue ++ ");"

/-- One `useOptimistic` line. -/
def optimisticLine (o : OptimisticDecl) : String :=
  "  const [" ++ o.name ++ ", " ++ addFnName o.name ++ "] = useOptimistic(" ++
    expressionToJS o.state ++ ", " ++ expressionToJS o.updateFn ++ ");"

/-- One `useSyncExternalStore` line. -/
def syncLine (s : SyncDecl) : String :=
  match s.getServerSnapshot with
  | some g =>
    "  const " ++ s.name ++ " = useSyncExternalStore(" ++ expressionToJS s.subscribe ++
      ", " ++ expressionToJS s.getSnapshot ++ ", " ++ expressionToJS g ++ ");"
  | none =>
    "  const " ++ s.name ++ " = useSyncExternalStore(" ++ expressionToJS s.subscribe ++
      ", " ++ expressionToJS s.getSnapshot ++ ");"

/-- One `useActionState` line. -/
def actionStateLine (a : ActionStateDecl) : String :=
  "  const [" ++ a.name ++ ", " ++ formActionName a.name ++ ", " ++ isPendingName a.name ++
    "] = useActionState(" ++ expressionToJS a.actionFn ++ ", " ++
    expressionToJS a.initialState ++ ");"

/-- One `useReducer` hook line. -/
def reducerHookLine (r : ReducerDecl) : String :=
  "  const [" ++ r.name ++ ", " ++ dispatchName r.name ++ "] = useReducer(" ++
    reducerFnName r.name ++ ", " ++ expressionToJS r.initialValue ++ ");"

/-- One `useTransition` line. -/
def transitionLine (t : TransitionDecl) : String :=
  "  const [" ++ isPendingName t.name ++ ", " ++ startTransitionName t.name ++
    "] = useTransition();"

/-- One `useContext` line. -/
def contextLine (c : CtxDecl) : String :=
  "  const " ++ c.name ++ " = useContext(" ++ contextObjectName c.name ++ ");"

/-- One `useCallback` line. -/
def callbackLine (cb : NamedExpr) : String :=
  "  const " ++ cb.name ++ " = useCallback(" ++ expressionToJS cb.value ++ ", [" ++
    String.intercalate ", " (callbackDeps cb.value) ++ "]);"

/-- One `useRef` line. -/
def refLine (r : RefDecl) : String :=
  "  const " ++ r.name ++ " = useRef" ++ hookTypeSuffix r.type ++ "(" ++
    (match r.initialValue with
     | some v => expressionToJS v
     | none => "null") ++ ");"

/-- The `useImperativeHandle` block, when handles exist. -/
def handleBlock (ast : Component) : List String :=
  if ast.handles.length > 0 then
    ["  useImperativeHandle(ref, () => (\x7b"]
    ++ ast.handles.map (fun h => "    " ++ h.name ++ ": " ++ expressionToJS h.value ++ ",")
    ++ ["  \x7d));", ""]
  else []

/-- One `useMemo` line. -/
def memoLine (m : MemoDecl) : String :=
  "  const " ++ m.name ++ " = useMemo" ++ hookTypeSuffix m.type ++ "(() => " ++
    expressionToJS m.value ++ ", [" ++
    String.intercalate ", " (extractDependencies m.value) ++ "]);"

/-- One effect block (`useEffect` or `useLayoutEffect`); the `log`
function name is special-cased to `console.log`. -/
def effectBlock (hook : String) (e : EffectDecl) : List String :=
  let deps := e.args.map expressionToJS
  if e.functionName = "log" then
    ["  " ++ hook ++ "(() => \x7b",
     "    console.log(" ++ String.intercalate ", " deps ++ ");",
     "  \x7d, [" ++ String.intercalate ", " deps ++ "]);"]
  else
    ["  " ++ hook ++ "(() => \x7b",
     "    " ++ e.functionName ++ "(" ++ String.intercalate ", " deps ++ ");",
     "  \x7d, [" ++ String.intercalate ", " deps ++ "]);"]

/-- One event-handler line. -/
def eventLine (ev : String × Expr) : String :=
  "  const " ++ ev.1 ++ " = " ++ generateEventHandler ev.2 ++ ";"

/-- A single blank line when the collection is non-empty. -/
def blankIf {α : Type} (l : List α) : List String :=
  if l.length > 0 then [""] else []

/-- The JSX code pushed between `return (` and `);` — one entry, possibly
containing embedded newlines. -/
def jsxCodeTS (ast : Component) : String :=
  match ast.jsx with
  | none => spacesN 4 ++ "<div />"
  | some j => generateJSX j 4

/-- The full line list emitted by `generateTypeScript(ast, _, options)`. -/
def tsLines (ast : Component) (componentName : String) : List String :=
  [tsImportLine ast]
  ++ ast.contexts.map ctxImportLine
  ++ [""]
  ++ propsInterfaceBlock ast componentName
  ++ (ast.reducers.map reducerFnBlock).flatten
  ++ [componentSignature ast componentName]
  ++ ast.states.map stateLine ++ blankIf ast.states
  ++ ast.ids.map idLine ++ blankIf ast.ids
  ++ ast.deferredValues.map deferredLine ++ blankIf ast.deferredValues
  ++ ast.optimistics.map optimisticLine ++ blankIf ast.optimistics
  ++ ast.syncs.map syncLine ++ blankIf ast.syncs
  ++ ast.actionStates.map actionStateLine ++ blankIf ast.actionStates
  ++ ast.reducers.map reducerHookLine ++ blankIf ast.reducers
  ++ ast.transitions.map transitionLine ++ blankIf ast.transitions
  ++ ast.contexts.map contextLine ++ blankIf ast.contexts
  ++ ast.callbacks.map callbackLine ++ blankIf ast.callbacks
  ++ ast.refs.map refLine ++ blankIf ast.refs
  ++ handleBlock ast
  ++ ast.memos.map memoLine ++ blankIf ast.memos
  ++ (ast.effects.map (effectBlock "useEffect")).flatten ++ blankIf ast.effects
  ++ (ast.layoutEffects.map (effectBlock "useLayoutEffect")).flatten ++ blankIf ast.layoutEffects
  ++ ast.events.map eventLine ++ blankIf ast.events
  ++ ["  return (", jsxCodeTS ast, "  );"]
  ++ [(if ast.handles.length > 0 then "\x7d);" else "\x7d")]
  ++ ["", "export default " ++ componentName ++ ";"]

/-- The tokenize → parse → generateTypeScript pipeline (component name
defaulted to `Component`), producing the emitted lines. -/
def compileTS (input : String) : Except String (List String) := do
  let toks ← tokenizeStr input
  let ast ← parse toks
  .ok (tsLines ast "Component")

/-! ## Generator, plain variant (`generate` in `generator.js`).
`generator.js` duplicates `capitalize` and `extractDependencies` verbatim
(those definitions are reused here), but its `expressionToJS` lacks the
`PropertyAccess` and `ArrowFunction` cases (they fall to the `'null'`
default), its tag-alias table lacks the heading tags, and its `val`
attribute has no two-way binding. -/

mutual

/-- `expressionToJS` of `generator.js`. -/
def expressionToJSPlain : Expr → String
  | .literal value => value
  | .identifier name => name
  | .update target op value =>
    if op = "++" then target ++ " + 1"
    else if op = "--" then target ++ " - 1"
    else if op = "+=" then
      match value with
      | some v => target ++ " + " ++ expressionToJSPlain v
      | none => target
    else target
  | .binaryOp op left right =>
    expressionToJSPlain left ++ " " ++ op ++ " " ++ expressionToJSPlain right
  | .methodCall object method args =>
    object ++ "." ++ method ++ "(" ++ String.intercalate ", " (exprListToJSPlain args) ++ ")"
  | .arr elements =>
    "[" ++ String.intercalate ", " (exprListToJSPlain elements) ++ "]"
  | _ => "null"

/-- `args.map(expressionToJS)` in `generator.js`. -/
def exprListToJSPlain : List Expr → List String
  | [] => []
  | e :: es => expressionToJSPlain e :: exprListToJSPlain es

end

/-- `generateEventHandler` of `generator.js`. -/
def generateEventHandlerPlain (handler : Expr) : String :=
  match handler with
  | .update target op value =>
    let setter := setterName target
    if op = "++" then "() => " ++ setter ++ "(" ++ target ++ " + 1)"
    else if op = "--" then "() => " ++ setter ++ "(" ++ target ++ " - 1)"
    else if op = "+=" then
      match value with
      | some v => "() => " ++ setter ++ "(" ++ target ++ " + " ++ expressionToJSPlain v ++ ")"
      | none => "() => " ++ expressionToJSPlain handler
    else "() => " ++ expressionToJSPlain handler
  | .methodCall object method args =>
    if method = "push" then
      "() => " ++ setterName object ++ "([..." ++ object ++ ", " ++
        String.intercalate ", " (exprListToJSPlain args) ++ "])"
    else "() => " ++ expressionToJSPlain handler
  | _ => "() => " ++ expressionToJSPlain handler

/-- The tag-alias object of the plain `generateJSXElement` (no heading
tags); again only `btn` is a real alias. -/
def htmlTagForPlain (tagName : String) : String :=
  if tagName = "btn" then "button"
  else if tagName = "input" then "input"
  else if tagName = "p" then "p"
  else if tagName = "div" then "div"
  else if tagName = "span" then "span"
  else if tagName = "ul" then "ul"
  else if tagName = "li" then "li"
  else tagName

/-- One attribute of the plain `generateJSXElement`. -/
def renderAttrPlain (a : Attr) : String :=
  match a.value with
  | .eventHandler handler => reactEventFor a.name ++ "=\x7b" ++ handler ++ "\x7d"
  | .expr e =>
    if a.name = "val" then "value=\x7b" ++ expressionToJSPlain e ++ "\x7d"
    else if a.name = "on" then "onChange=\x7b" ++ expressionToJSPlain e ++ "\x7d"
    else a.name ++ "=\x7b" ++ expressionToJSPlain e ++ "\x7d"

mutual

/-- `generateJSX` of `generator.js`. -/
def generateJSXPlain : JSX → Nat → String
  | .element tagName attributes children, indent =>
    generateJSXElementCorePlain tagName attributes children indent
  | .fragment children, indent =>
    spacesN indent ++ "<>\n" ++
      String.intercalate "\n" (generateJSXListPlain children (indent + 2)) ++
      "\n" ++ spacesN indent ++ "</>"
  | .exprChild e, _ => "\x7b" ++ expressionToJSPlain e ++ "\x7d"
  | .text v, _ => v
  | .eachLoop item _ listName template, indent =>
    generateEachLoopCorePlain item listName template indent
termination_by j _ => (sizeOf j, 0)

/-- Fragment children map of the plain generator. -/
def generateJSXListPlain : List JSX → Nat → List String
  | [], _ => []
  | c :: cs, indent => generateJSXPlain c indent :: generateJSXListPlain cs indent
termination_by l _ => (sizeOf l, 0)

/-- `generateJSXElement` of `generator.js`, destructured. -/
def generateJSXElementCorePlain (tagName : String) (attributes : List Attr)
    (children : List JSX) (indent : Nat) : String :=
  let spaces := spacesN indent
  let htmlTagName := htmlTagForPlain tagName
  let attrs := attributes.map renderAttrPlain
  let attrString := if attrs.length > 0 then " " ++ String.intercalate " " attrs else ""
  if children.length = 0 then
    spaces ++ "<" ++ htmlTagName ++ attrString ++ " />"
  else if children.all isTextOrExpr then
    let childContent := String.intercalate " " (children.map (fun child =>
      match child with
      | .text v => v
      | .exprChild e => "\x7b" ++ expressionToJSPlain e ++ "\x7d"
      | _ => ""))
    spaces ++ "<" ++ htmlTagName ++ attrString ++ ">" ++ childContent ++
      "</" ++ htmlTagName ++ ">"
  else
    spaces ++ "<" ++ htmlTagName ++ attrString ++ ">\n" ++
      String.intercalate "\n" (generateJSXChildrenComplexPlain children indent) ++
      "\n" ++ spaces ++ "</" ++ htmlTagName ++ ">"
termination_by (sizeOf children, 1)

/-- Complex-children map of the plain `generateJSXElement`. -/
def generateJSXChildrenComplexPlain : List JSX → Nat → List String
  | [], _ => []
  | c :: cs, indent =>
    (match c with
     | .text v => spacesN indent ++ "  " ++ v
     | .exprChild e => spacesN indent ++ "  \x7b" ++ expressionToJSPlain e ++ "\x7d"
     | other => generateJSXPlain other (indent + 2)) ::
    generateJSXChildrenComplexPlain cs indent
termination_by l _ => (sizeOf l, 0)

/-- `generateEachLoop` of `generator.js` (no item type annotation). -/
def generateEachLoopCorePlain (item : String) (listName : String)
    (template : JSX) (indent : Nat) : String :=
  let spaces := spacesN indent
  let templateStr :=
    (match template with
     | .element t a c => generateJSXElementCorePlain t a c 0
     | _ => "").trim
  let itemized := templateStr.replace ("\x7b" ++ item ++ "\x7d") "\x7bitem\x7d"
  spaces ++ "\x7b" ++ listName ++ ".map((item, index) => (\n" ++
    spaces ++ "  " ++ itemized ++ "\n" ++ spaces ++ "))\x7d"
termination_by (sizeOf template, 1)

end

/-- One plain `useState` line. -/
def stateLinePlain (s : StateDecl) : String :=
  "  const [" ++ s.name ++ ", " ++ setterName s.name ++ "] = useState(" ++
    expressionToJSPlain s.initialValue ++ ");"

/-- One plain `useMemo` line. -/
def memoLinePlain (m : MemoDecl) : String :=
  "  const " ++ m.name ++ " = useMemo(() => " ++ expressionToJSPlain m.value ++
    ", [" ++ String.intercalate ", " (extractDependencies m.value) ++ "]);"

/-- One plain effect block. -/
def effectBlockPlain (e : EffectDecl) : List String :=
  let deps := e.args.map expressionToJSPlain
  if e.functionName = "log" then
    ["  useEffect(() => \x7b",
     "    console.log(" ++ String.intercalate ", " deps ++ ");",
     "  \x7d, [" ++ String.intercalate ", " deps ++ "]);"]
  else
    ["  useEffect(() => \x7b",
     "    " ++ e.functionName ++ "(" ++ String.intercalate ", " deps ++ ");",
     "  \x7d, [" ++ String.intercalate ", " deps ++ "]);"]

/-- One plain event-handler line. -/
def eventLinePlain (ev : String × Expr) : String :=
  "  const " ++ ev.1 ++ " = " ++ generateEventHandlerPlain ev.2 ++ ";"

/-- The plain JSX entry. -/
def jsxCodePlain (ast : Component) : String :=
  match ast.jsx with
  | none => spacesN 4 ++ "<div />"
  | some j => generateJSXPlain j 4

/-- The full line list emitted by `generate(ast)`.  The import line is a
fixed string, independent of which hooks the component uses, and the
props parameter stringifies the prop records via `Array.prototype.join`,
yielding `[object Object]` per prop. -/
def plainLines (ast : Component) : List String :=
  ["import React, \x7b useState, useEffect, useMemo \x7d from \x27react\x27;", ""]
  ++ ["function Component(" ++
      (if ast.props.length > 0 then
        "\x7b " ++ String.intercalate ", " (ast.props.map (fun _ => "[object Object]")) ++ " \x7d"
      else "") ++ ") \x7b"]
  ++ ast.states.map stateLinePlain ++ blankIf ast.states
  ++ ast.memos.map memoLinePlain ++ blankIf ast.memos
  ++ (ast.effects.map effectBlockPlain).flatten ++ blankIf ast.effects
  ++ ast.events.map eventLinePlain ++ blankIf ast.events
  ++ ["  return (", jsxCodePlain ast, "  );"]
  ++ ["\x7d", "", "export default Component;"]


/-! ## Specification-side definitions

These render the spec's naming-convention rules and the wording of the
claims, for comparison with the code-side definitions above. -/

/-- Spec rule: updater = `set` + capitalized name. -/
def specUpdaterName (n : String) : String := "set" ++ capitalize n

/-- Spec rule: reducer function = name + `Reducer`. -/
def specReducerFnName (n : String) : String := n ++ "Reducer"

/-- Spec rule: dispatcher = `dispatch` + capitalized name. -/
def specDispatcherName (n : String) : String := "dispatch" ++ capitalize n

/-- Spec rule: pending-flag = `isPending` + capitalized name. -/
def specPendingFlagName (n : String) : String := "isPending" ++ capitalize n

/-- Spec rule: transition-starter = `start` + capitalized name + `Transition`. -/
def specTransitionStarterName (n : String) : String :=
  "start" ++ capitalize n ++ "Transition"

/-- Spec rule: optimistic-updater = `add` + capitalized name. -/
def specOptimisticUpdaterName (n : String) : String := "add" ++ capitalize n

/-- Spec rule: action-wrapper = name + `Action`. -/
def specActionWrapperName (n : String) : String := n ++ "Action"

mutual

/-- Whether an expression tree contains a method-call node anywhere. -/
def hasMethodCall : Expr → Bool
  | .methodCall _ _ _ => true
  | .binaryOp _ left right => hasMethodCall left || hasMethodCall right
  | .update _ _ (some v) => hasMethodCall v
  | .arrowFunction _ body => hasMethodCall body
  | .arr elements => hasMethodCallList elements
  | _ => false

/-- `hasMethodCall` over a list of expressions. -/
def hasMethodCallList : List Expr → Bool
  | [] => false
  | e :: es => hasMethodCall e || hasMethodCallList es

end

/-- From the claim's wording for the unterminated-string value: each escape
character is dropped and the following character is taken literally (an
escape with no following character is simply dropped). -/
def specUnescape : List Char → String
  | [] => ""
  | c :: cs =>
    if c = '\x5c' then
      match cs with
      | [] => ""
      | d :: ds => String.singleton d ++ specUnescape ds
    else String.singleton c ++ specUnescape cs

/-- Whether escape-processing the remaining text ends on a dangling escape
character (the final input character is an escaping backslash). -/
def danglingEscape : List Char → Bool
  | [] => false
  | c :: cs =>
    if c = '\x5c' then
      match cs with
      | [] => true
      | _ :: ds => danglingEscape ds
    else danglingEscape cs

/-- The opening quote `q` is never closed in the remaining text:
scanning (with escape skipping) reaches the end of input without meeting
an unescaped `q`. -/
def neverCloses (q : Char) : List Char → Bool
  | [] => true
  | c :: cs =>
    if c = q then false
    else if c = '\x5c' then
      match cs with
      | [] => true
      | _ :: ds => neverCloses q ds
    else neverCloses q cs

/-- The tokenize stage followed by the parse stage. -/
def parseSource (input : String) : Except String Component :=
  (tokenizeStr input).bind parse

/-! ## Shared helper lemmas -/

/-- `bind` on a successful `Except` result. -/
theorem bind_ok_eq {α β : Type} (a : α) (f : α → Except String β) :
    (Except.ok a : Except String α) >>= f = f a := rfl

/-- `bind` on a failed `Except` result. -/
theorem bind_error_eq {α β : Type} (e : String) (f : α → Except String β) :
    (Except.error e : Except String α) >>= f = Except.error e := rfl

/-- Membership in a conditional singleton. -/
theorem mem_if_singleton {α : Type} {x y : α} {c : Prop} [Decidable c] :
    x ∈ (if c then [y] else []) ↔ c ∧ x = y := by
  split <;> simp_all

/-- Any state hook line lands in the generated output. -/
theorem mem_tsLines_of_mem_states {ast : Component} {cn x : String}
    (h : x ∈ ast.states.map stateLine) : x ∈ tsLines ast cn := by
  simp only [tsLines, List.mem_append]
  tauto

/-- Any reducer function block line lands in the generated output. -/
theorem mem_tsLines_of_mem_reducerFnBlocks {ast : Component} {cn x : String}
    (h : x ∈ (ast.reducers.map reducerFnBlock).flatten) : x ∈ tsLines ast cn := by
  simp only [tsLines, List.mem_append]
  tauto

/-- Any reducer hook line lands in the generated output. -/
theorem mem_tsLines_of_mem_reducerHooks {ast : Component} {cn x : String}
    (h : x ∈ ast.reducers.map reducerHookLine) : x ∈ tsLines ast cn := by
  simp only [tsLines, List.mem_append]
  tauto

/-- Any transition hook line lands in the generated output. -/
theorem mem_tsLines_of_mem_transitions {ast : Component} {cn x : String}
    (h : x ∈ ast.transitions.map transitionLine) : x ∈ tsLines ast cn := by
  simp only [tsLines, List.mem_append]
  tauto

/-- Any optimistic hook line lands in the generated output. -/
theorem mem_tsLines_of_mem_optimistics {ast : Component} {cn x : String}
    (h : x ∈ ast.optimistics.map optimisticLine) : x ∈ tsLines ast cn := by
  simp only [tsLines, List.mem_append]
  tauto

/-- Any action-state hook line lands in the generated output. -/
theorem mem_tsLines_of_mem_actionStates {ast : Component} {cn x : String}
    (h : x ∈ ast.actionStates.map actionStateLine) : x ∈ tsLines ast cn := by
  simp only [tsLines, List.mem_append]
  tauto

/-- The collected dependencies stay duplicate-free on method-call-free
expressions: the `Identifier` branch checks `deps.includes` before
pushing, and no other branch pushes. -/
theorem extractDepsAux_nodup : ∀ (e : Expr) (deps : List String),
    hasMethodCall e = false → deps.Nodup → (extractDepsAux e deps).Nodup
  | .identifier n, deps, _, h => by
    simp only [extractDepsAux]
    split
    · exact h
    · rename_i hc
      have hn : n ∉ deps := fun hmem => hc (by simpa [List.elem_iff] using hmem)
      simp [List.nodup_append, h, hn]
  | .binaryOp o l r, deps, hmc, h => by
    simp only [hasMethodCall, Bool.or_eq_false_iff] at hmc
    simp only [extractDepsAux]
    exact extractDepsAux_nodup r _ hmc.2 (extractDepsAux_nodup l _ hmc.1 h)
  | .methodCall o m a, deps, hmc, h => by simp [hasMethodCall] at hmc
  | .literal v, deps, _, h => by simpa [extractDepsAux] using h
  | .update t op v, deps, _, h => by simpa [extractDepsAux] using h
  | .propertyAccess o p, deps, _, h => by simpa [extractDepsAux] using h
  | .arrowFunction p b, deps, _, h => by simpa [extractDepsAux] using h
  | .arr es, deps, _, h => by simpa [extractDepsAux] using h

/-- The unterminated-string scan consumes the whole remaining input and
produces the escape-processed text, with the JavaScript `undefined`
coercion appended when the input ends on a dangling escape. -/
theorem scanStringBody_of_neverCloses (q : Char) :
    ∀ cs : List Char, neverCloses q cs = true →
      scanStringBody q cs =
        (specUnescape cs ++ (if danglingEscape cs then "undefined" else ""), [])
  | [], _ => rfl
  | c :: cs, h => by
    rw [neverCloses.eq_def] at h
    rw [scanStringBody.eq_def, specUnescape.eq_def, danglingEscape.eq_def]
    by_cases hq : c = q
    · simp [hq] at h
    · by_cases hbs : c = '\x5c'
      · subst hbs
        cases cs with
        | nil => simp [hq]
        | cons d ds =>
          have hnc : neverCloses q ds = true := by simpa [hq] using h
          have ih := scanStringBody_of_neverCloses q ds hnc
          simp [hq, ih, String.append_assoc]
      · have hnc : neverCloses q cs = true := by simpa [hq, hbs] using h
        have ih := scanStringBody_of_neverCloses q cs hnc
        simp [hq, hbs, ih, String.append_assoc]

/-! ## Claim theorems -/

/-- Claim C1: for every generated component, each auxiliary identifier is
derived from its declaration's name by the fixed rule — a state named `n`
yields updater `set` + capitalized `n`; a reducer named `n` yields reducer
function `n` + `Reducer` and dispatcher `dispatch` + capitalized `n`; a
transition named `n` yields pending flag `isPending` + capitalized `n` and
starter `start` + capitalized `n` + `Transition`; an optimistic
declaration named `n` yields updater `add` + capitalized `n`; an
action-state named `n` yields wrapper `n` + `Action` and pending flag
`isPending` + capitalized `n` — with exactly this capitalization, for
every declaration name: the typed generator's output contains, for each
declaration, the hook line built with exactly the spec-derived
identifiers. -/
theorem c1_naming_convention_synthesis (ast : Component) (cn : String) :
    (∀ s ∈ ast.states,
      ("  const [" ++ s.name ++ ", " ++ specUpdaterName s.name ++ "] = useState" ++
        hookTypeSuffix s.type ++ "(" ++ expressionToJS s.initialValue ++ ");")
        ∈ tsLines ast cn) ∧
    (∀ r ∈ ast.reducers,
      ("function " ++ specReducerFnName r.name ++ "(state, action) \x7b")
        ∈ tsLines ast cn ∧
      ("  const [" ++ r.name ++ ", " ++ specDispatcherName r.name ++ "] = useReducer(" ++
        specReducerFnName r.name ++ ", " ++ expressionToJS r.initialValue ++ ");")
        ∈ tsLines ast cn) ∧
    (∀ t ∈ ast.transitions,
      ("  const [" ++ specPendingFlagName t.name ++ ", " ++
        specTransitionStarterName t.name ++ "] = useTransition();")
        ∈ tsLines ast cn) ∧
    (∀ o ∈ ast.optimistics,
      ("  const [" ++ o.name ++ ", " ++ specOptimisticUpdaterName o.name ++
        "] = useOptimistic(" ++ expressionToJS o.state ++ ", " ++
        expressionToJS o.updateFn ++ ");") ∈ tsLines ast cn) ∧
    (∀ a ∈ ast.actionStates,
      ("  const [" ++ a.name ++ ", " ++ specActionWrapperName a.name ++ ", " ++
        specPendingFlagName a.name ++ "] = useActionState(" ++
        expressionToJS a.actionFn ++ ", " ++ expressionToJS a.initialState ++ ");")
        ∈ tsLines ast cn) := by
  refine ⟨fun s hs => ?_, fun r hr => ⟨?_, ?_⟩, fun t ht => ?_, fun o ho => ?_,
    fun a ha => ?_⟩
  · exact mem_tsLines_of_mem_states (List.mem_map_of_mem stateLine hs)
  · refine mem_tsLines_of_mem_reducerFnBlocks (List.mem_flatten.mpr
      ⟨reducerFnBlock r, List.mem_map_of_mem _ hr, ?_⟩)
    exact List.mem_cons_self _ _
  · exact mem_tsLines_of_mem_reducerHooks (List.mem_map_of_mem reducerHookLine hr)
  · exact mem_tsLines_of_mem_transitions (List.mem_map_of_mem transitionLine ht)
  · exact mem_tsLines_of_mem_optimistics (List.mem_map_of_mem optimisticLine ho)
  · exact mem_tsLines_of_mem_actionStates (List.mem_map_of_mem actionStateLine ha)

/-- A demonstration component with one declaration of each naming-relevant
kind. -/
def c1Demo : Component :=
  { emptyComponent with
    states := [{ name := "count", type := none, initialValue := .literal "0" }]
    reducers := [{ name := "todo", initialValue := .literal "0", actions := [] }]
    transitions := [{ name := "submit" }]
    optimistics := [{ name := "msg", state := .identifier "msgs",
                      updateFn := .identifier "f" }]
    actionStates := [{ name := "form", actionFn := .identifier "doIt",
                       initialState := .literal "0" }] }

/-- Witness for C1 at a concrete component. -/
theorem c1_naming_convention_synthesis_witness :
    "  const [count, setCount] = useState(0);" ∈ tsLines c1Demo "Component" ∧
    "function todoReducer(state, action) \x7b" ∈ tsLines c1Demo "Component" ∧
    "  const [todo, dispatchTodo] = useReducer(todoReducer, 0);" ∈ tsLines c1Demo "Component" ∧
    "  const [isPendingSubmit, startSubmitTransition] = useTransition();" ∈ tsLines c1Demo "Component" ∧
    "  const [msg, addMsg] = useOptimistic(msgs, f);" ∈ tsLines c1Demo "Component" ∧
    "  const [form, formAction, isPendingForm] = useActionState(doIt, 0);" ∈ tsLines c1Demo "Component" := by
  have h := c1_naming_convention_synthesis c1Demo "Component"
  exact ⟨h.1 _ (List.mem_singleton.mpr rfl),
    (h.2.1 _ (List.mem_singleton.mpr rfl)).1,
    (h.2.1 _ (List.mem_singleton.mpr rfl)).2,
    h.2.2.1 _ (List.mem_singleton.mpr rfl),
    h.2.2.2.1 _ (List.mem_singleton.mpr rfl),
    h.2.2.2.2 _ (List.mem_singleton.mpr rfl)⟩

/-- The C2 counterexample expression `b + b.m()`. -/
def c2cex : Expr := .binaryOp "+" (.identifier "b") (.methodCall "b" "m" [])

/-- Claim C2 counterexample: dependency extraction over `b + b.m()` yields
`[b, b]` — the receiver of the method call is pushed without the
deduplication check, so an identifier can appear twice in the array,
refuting "no duplicates / each free identifier exactly once". -/
theorem c2_counterexample :
    extractDependencies c2cex = ["b", "b"] ∧
    ¬ (extractDependencies c2cex).Nodup := by
  constructor
  · rfl
  · decide

/-- Claim C2 (amended): for every expression with no method call the
dependency array has no duplicates (identifiers are collected first-seen,
deduplicated); a method-call receiver is pushed unconditionally and may
duplicate an already-collected identifier; extraction over
`a + b.method(c)` yields exactly `[a, b, c]`. -/
theorem c2_amended :
    (∀ e : Expr, hasMethodCall e = false → (extractDependencies e).Nodup) ∧
    extractDependencies
      (.binaryOp "+" (.identifier "a") (.methodCall "b" "method" [.identifier "c"])) =
      ["a", "b", "c"] :=
  ⟨fun e he => extractDepsAux_nodup e [] he List.nodup_nil, rfl⟩

/-- Witness for the amended C2 at a concrete method-call-free expression. -/
theorem c2_amended_witness :
    hasMethodCall (Expr.binaryOp "+" (.identifier "a") (.identifier "b")) = false ∧
    (extractDependencies (Expr.binaryOp "+" (.identifier "a") (.identifier "b"))).Nodup :=
  ⟨rfl, c2_amended.1 _ rfl⟩

/-- The C3 counterexample callback `(x) => total.f + x`. -/
def c3cex : Expr :=
  .arrowFunction ["x"] (.binaryOp "+" (.propertyAccess "total" "f") (.identifier "x"))

/-- Claim C3 counterexample: for the cached callback `(x) => total.f + x`
the identifier `total` is free in the body (as a property-access
receiver), yet the generated dependency array is empty — traversal has no
`PropertyAccess` branch — refuting "includes the free identifiers of its
body". -/
theorem c3_counterexample :
    callbackDeps c3cex = [] ∧ "total" ∉ callbackDeps c3cex := by
  constructor
  · rfl
  · decide

/-- Claim C3 (amended): for every cached-callback whose value is an arrow
function, the dependency array excludes every identifier that is one of
the arrow function's parameters, and contains every identifier that
dependency extraction collects from the body and that is not a parameter
(identifiers the extractor misses, such as property-access receivers, are
not included); `(x) => x + total` yields exactly `[total]`. -/
theorem c3_amended :
    (∀ (params : List String) (body : Expr),
      (∀ p ∈ params, p ∉ callbackDeps (.arrowFunction params body)) ∧
      (∀ d ∈ extractDependencies body, d ∉ params →
        d ∈ callbackDeps (.arrowFunction params body))) ∧
    callbackDeps
      (.arrowFunction ["x"] (.binaryOp "+" (.identifier "x") (.identifier "total"))) =
      ["total"] := by
  refine ⟨fun params body => ⟨fun p hp hmem => ?_, fun d hd hnp => ?_⟩, rfl⟩
  · simp only [callbackDeps] at hmem
    have hkeep := List.of_mem_filter hmem
    simp only [Bool.not_eq_true', ← Bool.not_eq_true, List.elem_iff] at hkeep
    exact hkeep hp
  · simp only [callbackDeps]
    refine List.mem_filter.mpr ⟨hd, ?_⟩
    simp only [Bool.not_eq_true', ← Bool.not_eq_true, List.elem_iff]
    exact hnp

/-- Witness for the amended C3 at the concrete callback `(x) => x + total`. -/
theorem c3_amended_witness :
    "x" ∉ callbackDeps
      (Expr.arrowFunction ["x"] (.binaryOp "+" (.identifier "x") (.identifier "total"))) ∧
    "total" ∈ callbackDeps
      (Expr.arrowFunction ["x"] (.binaryOp "+" (.identifier "x") (.identifier "total"))) :=
  ⟨(c3_amended.1 ["x"] _).1 "x" (by decide),
   (c3_amended.1 ["x"] _).2 "total" (by decide) (by decide)⟩

/-- The C4 scenario input. -/
def c4Input : String :=
  "@count = 0\n!click = count++\n<btn @click=click>\x7bcount\x7d</btn>"

/-- The output lines of the C4 scenario. -/
def c4Expected : List String :=
  ["import React, \x7b useState \x7d from \x27react\x27;", "",
   "function Component() \x7b",
   "  const [count, setCount] = useState(0);", "",
   "  const click = () => setCount(count + 1);", "",
   "  return (",
   "    <button onClick=\x7bclick\x7d>\x7bcount\x7d</button>",
   "  );", "\x7d", "", "export default Component;"]

/-- The markup element of the C4 scenario as parsed. -/
def c4El : JSX :=
  .element "btn" [{ name := "click", value := .eventHandler "click" }]
    [.exprChild (.identifier "count")]

/-- The component AST of the C4 scenario as parsed. -/
def c4Ast : Component :=
  { emptyComponent with
    states := [{ name := "count", type := none, initialValue := .literal "0" }]
    events := [("click", .update "count" "++" none)]
    jsx := some c4El }

set_option maxRecDepth 10000 in
/-- Claim C4: the end-to-end pipeline on `@count = 0`, `!click = count++`,
`<btn @click=click>{count}</btn>` succeeds, and the output (a) declares
the state pair for `count` with updater `setCount`, (b) declares a
zero-argument handler `click` invoking the updater with `count + 1`, and
(c) renders a button element with `onClick` bound to `click` and text
content interpolating `count`. -/
theorem c4_end_to_end_scenario :
    compileTS c4Input = .ok c4Expected ∧
    "  const [count, setCount] = useState(0);" ∈ c4Expected ∧
    "  const click = () => setCount(count + 1);" ∈ c4Expected ∧
    "    <button onClick=\x7bclick\x7d>\x7bcount\x7d</button>" ∈ c4Expected := by
  have hel : generateJSX c4El 4 =
      "    <button onClick=\x7bclick\x7d>\x7bcount\x7d</button>" := by
    rw [c4El, generateJSX, generateJSXElementCore.eq_def]
    rfl
  have h1 : compileTS c4Input = .ok (tsLines c4Ast "Component") := rfl
  have h2 : tsLines c4Ast "Component" = c4Expected := by
    rw [tsLines, show jsxCodeTS c4Ast = generateJSX c4El 4 from rfl, hel]
    rfl
  exact ⟨h1.trans (by rw [h2]), by decide, by decide, by decide⟩

/-- Claim C5 counterexample: the plain generator's import line is the
fixed string naming `useState`, `useEffect` and `useMemo` even for a
component with no state, effect or memo declarations, refuting the
"imports exactly the hooks actually used" iff for the plain output. -/
theorem c5_counterexample :
    plainLines emptyComponent =
      ["import React, \x7b useState, useEffect, useMemo \x7d from \x27react\x27;", "",
       "function Component() \x7b", "  return (", "    <div />", "  );", "\x7d", "",
       "export default Component;"] ∧
    emptyComponent.states = [] ∧ emptyComponent.effects = [] ∧
    emptyComponent.memos = [] :=
  ⟨rfl, rfl, rfl, rfl⟩

/-- Claim C5 (amended): the plain generator's import line is always the
fixed `import React, { useState, useEffect, useMemo } from 'react';`
independent of the AST; it is the typed generator whose import list
contains each hook name if and only if the component has at least one
declaration of the corresponding kind, plus the fixed base symbol
`React`. -/
theorem c5_amended (ast : Component) :
    (plainLines ast).head? =
      some "import React, \x7b useState, useEffect, useMemo \x7d from \x27react\x27;" ∧
    "React" ∈ tsImports ast ∧
    ("useState" ∈ tsImports ast ↔ ast.states ≠ []) ∧
    ("useReducer" ∈ tsImports ast ↔ ast.reducers ≠ []) ∧
    ("useTransition" ∈ tsImports ast ↔ ast.transitions ≠ []) ∧
    ("useContext" ∈ tsImports ast ↔ ast.contexts ≠ []) ∧
    ("useCallback" ∈ tsImports ast ↔ ast.callbacks ≠ []) ∧
    ("useRef" ∈ tsImports ast ↔ ast.refs ≠ []) ∧
    ("useEffect" ∈ tsImports ast ↔ ast.effects ≠ []) ∧
    ("useLayoutEffect" ∈ tsImports ast ↔ ast.layoutEffects ≠ []) ∧
    ("useMemo" ∈ tsImports ast ↔ ast.memos ≠ []) ∧
    ("useDeferredValue" ∈ tsImports ast ↔ ast.deferredValues ≠ []) ∧
    ("useOptimistic" ∈ tsImports ast ↔ ast.optimistics ≠ []) ∧
    ("useId" ∈ tsImports ast ↔ ast.ids ≠ []) ∧
    ("useSyncExternalStore" ∈ tsImports ast ↔ ast.syncs ≠ []) ∧
    ("useActionState" ∈ tsImports ast ↔ ast.actionStates ≠ []) ∧
    ("forwardRef" ∈ tsImports ast ↔ ast.handles ≠ []) ∧
    ("useImperativeHandle" ∈ tsImports ast ↔ ast.handles ≠ []) := by
  refine ⟨rfl, ?_, ?_, ?_, ?_, ?_, ?_, ?_, ?_, ?_, ?_, ?_, ?_, ?_, ?_, ?_, ?_, ?_⟩ <;>
    · simp only [tsImports, List.mem_append, mem_if_singleton, List.mem_singleton,
        gt_iff_lt, List.length_pos]
      simp

/-- Claim C6: for every expression beginning with an identifier followed
by an arithmetic operator, the parser produces a binary-operation node
whose right operand is the full recursively parsed remainder of the
expression; `a + b * c` parses as `a + (b * c)` and `a - b - c` parses
right-nested as `a - (b - c)`, never left-associatively. -/
theorem c6_right_recursive_binary_expressions :
    (∀ (fuel : Nat) (n : String) (rest : List Tok),
      parseExpression (fuel + 1) (.identifier n :: .plus :: rest) =
        (parseExpression fuel rest).map
          (fun p => (Expr.binaryOp "+" (.identifier n) p.1, p.2)) ∧
      parseExpression (fuel + 1) (.identifier n :: .minus :: rest) =
        (parseExpression fuel rest).map
          (fun p => (Expr.binaryOp "-" (.identifier n) p.1, p.2)) ∧
      parseExpression (fuel + 1) (.identifier n :: .multiply :: rest) =
        (parseExpression fuel rest).map
          (fun p => (Expr.binaryOp "*" (.identifier n) p.1, p.2)) ∧
      parseExpression (fuel + 1) (.identifier n :: .slash :: rest) =
        (parseExpression fuel rest).map
          (fun p => (Expr.binaryOp "/" (.identifier n) p.1, p.2))) ∧
    tokenizeStr "a + b * c" =
      .ok [.identifier "a", .plus, .identifier "b", .multiply, .identifier "c", .eof] ∧
    parseExpression 9
      [.identifier "a", .plus, .identifier "b", .multiply, .identifier "c", .eof] =
      .ok (.binaryOp "+" (.identifier "a")
        (.binaryOp "*" (.identifier "b") (.identifier "c")), [.eof]) ∧
    tokenizeStr "a - b - c" =
      .ok [.identifier "a", .minus, .identifier "b", .minus, .identifier "c", .eof] ∧
    parseExpression 9
      [.identifier "a", .minus, .identifier "b", .minus, .identifier "c", .eof] =
      .ok (.binaryOp "-" (.identifier "a")
        (.binaryOp "-" (.identifier "b") (.identifier "c")), [.eof]) := by
  refine ⟨fun fuel n rest => ⟨?_, ?_, ?_, ?_⟩, rfl, rfl, rfl, rfl⟩ <;>
  · cases h : parseExpression fuel rest with
    | error e =>
      simp only [parseExpression, h]
      rfl
    | ok p =>
      obtain ⟨e1, ts1⟩ := p
      simp only [parseExpression, h]
      rfl

/-- Claim C7: the tokenizer lexes `&` as `AMPERSAND`; the parser's
top-level dispatch compares against `TOKEN_TYPES.CONTEXT`, a constant the
tokenizer never defines (it is `undefined`), so the case never matches and
`parseContext` is unreachable — `&theme` falls through to the default
branch, which raises instead of recording a context cell. -/
theorem c7_context_declaration_rejected :
    tokenizeStr "&theme" = .ok [.ampersand, .identifier "theme", .eof] ∧
    parseSource "&theme" = .error "Unexpected token: AMPERSAND" :=
  ⟨rfl, rfl⟩

/-- The markup element of the C8 matching-tag scenario. -/
def c8El : JSX := .element "div" [] [.text "x"]

/-- The component AST of the C8 matching-tag scenario. -/
def c8Ast : Component := { emptyComponent with jsx := some c8El }

/-- The output lines of the C8 matching-tag scenario. -/
def c8Expected : List String :=
  ["import React from \x27react\x27;", "", "function Component() \x7b", "  return (",
   "    <div>x</div>", "  );", "\x7d", "", "export default Component;"]

set_option maxRecDepth 10000 in
/-- Claim C8: elements whose closing-tag name differs from the opening-tag
name fail with the mismatched-tag error (and the compilation produces no
output text), while a matching closing tag raises no such error: after the
attribute and child phases, `parseJSXElement` succeeds exactly when the
closing identifier equals the opening tag name, and concretely
`<div>x</span>` aborts the pipeline with the mismatched-tag error while
`<div>x</div>` compiles. -/
theorem c8_mismatched_closing_tag :
    (∀ (fuel : Nat) (t c : String) (ts r3 rest : List Tok)
        (attributes : List Attr) (children : List JSX),
      parseAttrs fuel ts = .ok (attributes, .gt :: r3) →
      parseChildren fuel r3 =
        .ok (children, .lt :: .slash :: .identifier c :: .gt :: rest) →
      parseJSXElement (fuel + 1) (.lt :: .identifier t :: ts) =
        if c = t then .ok (.element t attributes children, rest)
        else .error ("Mismatched closing tag: expected " ++ t ++ " but got " ++ c)) ∧
    compileTS "<div>x</span>" =
      .error "Mismatched closing tag: expected div but got span" ∧
    compileTS "<div>x</div>" = .ok c8Expected := by
  refine ⟨fun fuel t c ts r3 rest attributes children h1 h2 => ?_, rfl, ?_⟩
  · simp only [parseJSXElement, h1, h2, bind_ok_eq]
    by_cases hct : c = t
    · simp [hct]
    · simp [hct]
  · have hel : generateJSX c8El 4 = "    <div>x</div>" := by
      rw [c8El, generateJSX, generateJSXElementCore.eq_def]
      rfl
    have h1 : compileTS "<div>x</div>" = .ok (tsLines c8Ast "Component") := rfl
    have h2 : tsLines c8Ast "Component" = c8Expected := by
      rw [tsLines, show jsxCodeTS c8Ast = generateJSX c8El 4 from rfl, hel]
      rfl
    exact h1.trans (by rw [h2])

/-- Witness for the universal part of C8 at a concrete mismatched
element. -/
theorem c8_mismatched_closing_tag_witness :
    parseJSXElement 6
      [.lt, .identifier "div", .gt, .identifier "x", .lt, .slash,
       .identifier "span", .gt] =
      .error "Mismatched closing tag: expected div but got span" := by
  have h := c8_mismatched_closing_tag.1 5 "div" "span"
    [.gt, .identifier "x", .lt, .slash, .identifier "span", .gt]
    [.identifier "x", .lt, .slash, .identifier "span", .gt] [] [] [.text "x"]
    rfl rfl
  simpa using h

/-- Claim C9 counterexample: an each-loop closed by `</div>` (any
identifier in closing position) parses successfully — the source consumes
the closing identifier without comparing it with `each` — refuting
"parsing fails when the closing tag's name is anything other than
`each`". -/
theorem c9_counterexample :
    parseEachLoop 50
      [.lt, .identifier "each", .identifier "x", .identifier "in",
       .identifier "items", .gt,
       .lt, .identifier "li", .gt, .identifier "y", .lt, .slash,
       .identifier "li", .gt,
       .lt, .slash, .identifier "div", .gt] =
      .ok (.eachLoop "x" none "items" (.element "li" [] [.text "y"]), []) := rfl

/-- Claim C9 (amended): the each-loop parser accepts exactly the shape
iteration variable, optional `::Type`, literal keyword `in`, source
identifier, one template element, and a closing tag of the form
`</` identifier `>` whose identifier is consumed without being compared
to `each`; parsing fails when the keyword is not `in` (and when the
opening word is not `each`). -/
theorem c9_each_loop_shape :
    (∀ (fuel : Nat) (x w src : String) (ts r1 rest : List Tok) (tpl : JSX),
      parseJSXElement fuel (skipNewlines ts) = .ok (tpl, r1) →
      skipNewlines r1 = .lt :: .slash :: .identifier w :: .gt :: rest →
      parseEachLoop (fuel + 1)
        (.lt :: .identifier "each" :: .identifier x :: .identifier "in" ::
          .identifier src :: .gt :: ts) =
        .ok (.eachLoop x none src tpl, rest)) ∧
    (∀ (fuel : Nat) (x k : String) (rest : List Tok), k ≠ "in" →
      parseEachLoop (fuel + 1)
        (.lt :: .identifier "each" :: .identifier x :: .identifier k :: rest) =
        .error "Expected \x22in\x22 in each loop") ∧
    (∀ (fuel : Nat) (w : String) (rest : List Tok), w ≠ "each" →
      parseEachLoop (fuel + 1) (.lt :: .identifier w :: rest) =
        .error "Expected \x22each\x22 in loop") := by
  refine ⟨fun fuel x w src ts r1 rest tpl h1 h2 => ?_,
    fun fuel x k rest hk => ?_, fun fuel w rest hw => ?_⟩
  · simp [parseEachLoop, h1, h2, bind_ok_eq]
  · simp [parseEachLoop, hk, bind_ok_eq]
  · simp [parseEachLoop, hw]

/-- Witness for the amended C9 at concrete token lists. -/
theorem c9_each_loop_shape_witness :
    parseEachLoop 31
      [.lt, .identifier "each", .identifier "x", .identifier "in",
       .identifier "items", .gt,
       .lt, .identifier "li", .gt, .identifier "y", .lt, .slash,
       .identifier "li", .gt,
       .lt, .slash, .identifier "each", .gt] =
      .ok (.eachLoop "x" none "items" (.element "li" [] [.text "y"]), []) ∧
    parseEachLoop 8
      [.lt, .identifier "each", .identifier "x", .identifier "foo", .gt] =
      .error "Expected \x22in\x22 in each loop" :=
  ⟨c9_each_loop_shape.1 30 "x" "each" "items"
      [.lt, .identifier "li", .gt, .identifier "y", .lt, .slash,
       .identifier "li", .gt, .lt, .slash, .identifier "each", .gt]
      [.lt, .slash, .identifier "each", .gt] [] (.element "li" [] [.text "y"])
      rfl rfl,
   c9_each_loop_shape.2.1 7 "x" "foo" [.gt] (by decide)⟩

/-- `tokenizeLoop` with positive fuel on exhausted input emits exactly the
end-of-input token. -/
theorem tokenizeLoop_nil (n : Nat) : tokenizeLoop (n + 1) [] = .ok [Tok.eof] := rfl

/-- Claim C10 counterexample: on the two-character input `"\` (opening
quote, then a lone escape character) the lexer succeeds with a string
token whose value is the text `undefined` — the JavaScript
`value += advance()` past the end of input coerces `undefined` into the
value — whereas escape-processing the remaining text (`\`, with the
escape dropped and nothing following) gives the empty string. -/
theorem c10_counterexample :
    tokenize ['\x22', '\x5c'] = .ok [.str "undefined", .eof] ∧
    specUnescape ['\x5c'] = "" ∧ ("undefined" : String) ≠ "" :=
  ⟨rfl, rfl, by decide⟩

/-- Claim C10 (amended): for every input consisting of an opening quote
(either style) that is never closed, the lexer raises no error and
returns exactly a string token followed by one end-of-input token; the
string token's value is the remaining text with each escape character
dropped and the following character taken literally, except that when the
input ends on a dangling escape character the text `undefined` is
appended (JavaScript's out-of-bounds `advance()` coerced to a string). -/
theorem c10_unterminated_string :
    ∀ (q : Char) (cs : List Char), (q = '\x22' ∨ q = '\x27') →
      neverCloses q cs = true →
      tokenize (q :: cs) =
        .ok [.str (specUnescape cs ++
          (if danglingEscape cs then "undefined" else "")), .eof] := by
  intro q cs hq hnc
  have hscan := scanStringBody_of_neverCloses q cs hnc
  rcases hq with h | h <;> subst h
  · have hstep : tokenizeLoop (cs.length + 1 + 1) ('\x22' :: cs) =
        consTok (.str (scanStringBody '\x22' cs).1)
          (tokenizeLoop (cs.length + 1) ((scanStringBody '\x22' cs).2.drop 1)) := rfl
    rw [tokenize]
    simp only [List.length_cons]
    rw [hstep, hscan]
    rfl
  · have hstep : tokenizeLoop (cs.length + 1 + 1) ('\x27' :: cs) =
        consTok (.str (scanStringBody '\x27' cs).1)
          (tokenizeLoop (cs.length + 1) ((scanStringBody '\x27' cs).2.drop 1)) := rfl
    rw [tokenize]
    simp only [List.length_cons]
    rw [hstep, hscan]
    rfl

/-- Witness for the amended C10 at the concrete input `"ab\`. -/
theorem c10_unterminated_string_witness :
    neverCloses '\x22' ['a', 'b', '\x5c'] = true ∧
    tokenize ['\x22', 'a', 'b', '\x5c'] =
      .ok [.str (specUnescape ['a', 'b', '\x5c'] ++
        (if danglingEscape ['a', 'b', '\x5c'] then "undefined" else "")), .eof] :=
  ⟨rfl, c10_unterminated_string '\x22' ['a', 'b', '\x5c'] (Or.inl rfl) rfl⟩

end JsxDsl
